import Mathlib

/-!
# Distance measuring firmware: ICU driver and ultrasonic driver

A shallow embedding of `icu.c`, `ultrasonic.c` and the start-up statements of `main.c`
(ATmega16/32, Timer1 input capture) as pure functions on an explicit machine state.

Conventions of the embedding.

* Every C object is a field of `Mcu`: the memory-mapped registers the code touches and the
  file-scope / function-static variables of the two drivers.  Registers and variables hold
  natural numbers; a store whose right-hand side is an `int` expression is reduced modulo the
  width of the destination (`% 256` for 8-bit, `% 65536` for 16-bit objects).
* The headers `icu.h`, `ultrasonic.h`, `gpio.h` and `std_types.h` are not part of the sources.
  The compile-time constants of `ultrasonic.h` are the fields of `UltrasonicConfig`; the two
  enumerations of `icu.h` and the GPIO collaborator are modelled from the specification.
* `float64` arithmetic is embedded as exact arithmetic on `ℚ`; `ceil` is `Int.ceil`.
* Time is not part of the state: `_delay_us` is the identity, and the value the capture
  hardware latches is an argument of the step that models the capture.  Elapsed time and
  the actions on the trigger pin are observed on the recording machine, on which the bodies
  of the foreground functions run unchanged.
-/

namespace DistanceMeasuring

/-! ## Register bit positions (ATmega16/32 data sheet, `<avr/io.h>`) -/

/-- Pin 6 of port D, the ICP1 capture input. -/
def PD6 : Nat := 6
/-- Force-output-compare bit for channel A in `TCCR1A`. -/
def FOC1A : Nat := 3
/-- Force-output-compare bit for channel B in `TCCR1A`. -/
def FOC1B : Nat := 2
/-- Waveform generation mode bit 0 (in `TCCR1A`). -/
def WGM10 : Nat := 0
/-- Waveform generation mode bit 1 (in `TCCR1A`). -/
def WGM11 : Nat := 1
/-- Waveform generation mode bit 2 (in `TCCR1B`). -/
def WGM12 : Nat := 3
/-- Waveform generation mode bit 3 (in `TCCR1B`). -/
def WGM13 : Nat := 4
/-- Compare output mode bits of `TCCR1A`. -/
def COM1B0 : Nat := 4
/-- Compare output mode bits of `TCCR1A`. -/
def COM1B1 : Nat := 5
/-- Compare output mode bits of `TCCR1A`. -/
def COM1A0 : Nat := 6
/-- Compare output mode bits of `TCCR1A`. -/
def COM1A1 : Nat := 7
/-- Input capture edge select bit in `TCCR1B`. -/
def ICES1 : Nat := 6
/-- Input capture noise canceller bit in `TCCR1B`. -/
def ICNC1 : Nat := 7
/-- Input capture interrupt enable bit in `TIMSK`. -/
def TICIE1 : Nat := 5
/-- Input capture flag (interrupt pending) in `TIFR`. -/
def ICF1 : Nat := 5
/-- Global interrupt enable bit of `SREG`. -/
def SREG_I : Nat := 7

/-! ## Types of the missing headers -/

/-- Modelled from the spec: the enumeration `Icu_EdgeType` of `icu.h` (initial edge polarity,
rising | falling), with the numbering falling = 0, rising = 1. -/
inductive Icu_EdgeType where
  | FALLING
  | RISING
  deriving DecidableEq, Repr

/-- Numeric value of an edge enumerator, as it is shifted into `TCCR1B`. -/
def Icu_EdgeType.toNat : Icu_EdgeType → Nat
  | .FALLING => 0
  | .RISING => 1

/-- Modelled from the spec: the clock-source enumerators of `icu.h` (stopped, no-prescale,
÷8, ÷64, ÷256, ÷1024), numbered as the clock-select field of `TCCR1B`. -/
def NO_CLOCK : Nat := 0
/-- Clock selector: CPU clock, no prescaling. -/
def F_CPU_CLOCK : Nat := 1
/-- Clock selector: CPU clock / 8. -/
def F_CPU_8 : Nat := 2
/-- Clock selector: CPU clock / 64. -/
def F_CPU_64 : Nat := 3
/-- Clock selector: CPU clock / 256. -/
def F_CPU_256 : Nat := 4
/-- Clock selector: CPU clock / 1024. -/
def F_CPU_1024 : Nat := 5

/-- Modelled from the spec: the timer configuration record `Icu_ConfigType` of `icu.h`
(clock-source selector and initial edge polarity). -/
structure Icu_ConfigType where
  clock : Nat
  edge : Icu_EdgeType
  deriving DecidableEq, Repr

/-- The values of `ICU_TIMER_PRESCALER` for which `Ultrasonic_init` compiles: the
preprocessor chain declares the configuration structure for exactly these five. -/
inductive Prescaler where
  | div1
  | div8
  | div64
  | div256
  | div1024
  deriving DecidableEq, Repr

/-- Numeric value of the macro `ICU_TIMER_PRESCALER`. -/
def Prescaler.toNat : Prescaler → Nat
  | .div1 => 1
  | .div8 => 8
  | .div64 => 64
  | .div256 => 256
  | .div1024 => 1024

/-- Compile-time constants of `ultrasonic.h`. -/
structure UltrasonicConfig where
  SOUND_SPEED_CENTIMETERS_SECONDS : Nat
  FREQ_CPU_CLOCK : Nat
  ICU_TIMER_PRESCALER : Prescaler
  ULTRASONIC_TRIGGER_PORT_ID : Nat
  ULTRASONIC_TRIGGER_PIN_ID : Nat
  TRIGGER_PIN_DELAY_TIME_MICROSECONDS : Nat
  deriving DecidableEq, Repr

/-- The procedures of the program whose address is passed to `Icu_setCallBack`. -/
inductive CallbackFn where
  | edgeProcessing
  deriving DecidableEq, Repr

/-! ## Machine state -/

/-- Registers and driver variables. -/
structure Mcu where
  /-- Timer/Counter1 control register A. -/
  TCCR1A : Nat
  /-- Timer/Counter1 control register B. -/
  TCCR1B : Nat
  /-- Timer/Counter1 count (16 bit). -/
  TCNT1 : Nat
  /-- Input capture register (16 bit). -/
  ICR1 : Nat
  /-- Timer interrupt mask register. -/
  TIMSK : Nat
  /-- Timer interrupt flag register. -/
  TIFR : Nat
  /-- Status register. -/
  SREG : Nat
  DDRA : Nat
  DDRB : Nat
  DDRC : Nat
  DDRD : Nat
  PORTA : Nat
  PORTB : Nat
  PORTC : Nat
  PORTD : Nat
  /-- The variable `g_callBackPtr` of `icu.c`; `none` is `NULL_PTR`. -/
  g_callBackPtr : Option CallbackFn
  /-- The variable `g_startCalculations` of `ultrasonic.c` (`uint8`), the ready flag. -/
  g_startCalculations : Nat
  /-- The variable `g_highTime` of `ultrasonic.c` (`uint16`). -/
  g_highTime : Nat
  /-- The variable `g_interruptCounter` of `ultrasonic.c` (`uint8`), the edge count. -/
  g_interruptCounter : Nat
  /-- The function-static `distance` of `Ultrasonic_readDistance` (`uint16`). -/
  distance : Nat
  deriving DecidableEq, Repr

/-- State after reset: I/O registers cleared, statics at their initialisers. -/
def resetState : Mcu :=
  { TCCR1A := 0, TCCR1B := 0, TCNT1 := 0, ICR1 := 0, TIMSK := 0, TIFR := 0, SREG := 0,
    DDRA := 0, DDRB := 0, DDRC := 0, DDRD := 0,
    PORTA := 0, PORTB := 0, PORTC := 0, PORTD := 0,
    g_callBackPtr := none,
    g_startCalculations := 0, g_highTime := 0, g_interruptCounter := 0, distance := 0 }

/-- The C expression `~x` on a 16-bit `int`, as a bit pattern. -/
def bitNot (x : Nat) : Nat := 65535 ^^^ (x % 65536)

/-! ## GPIO collaborator -/

/-- Modelled from the spec: the GPIO collaborator `set_pin_direction(port, pin, direction)` of
`gpio.c`, which is not part of the sources.  Ports A..D are numbered 0..3; direction output
sets the pin's bit in the port's data-direction register, input clears it; a port or pin
number out of range has no effect. -/
def GPIO_setupPinDirection (port pin : Nat) (output : Bool) (s : Mcu) : Mcu :=
  if 8 ≤ pin then s
  else
    let upd : Nat → Nat := fun r =>
      if output then (r ||| (1 <<< pin)) % 256 else (r &&& bitNot (1 <<< pin)) % 256
    match port with
    | 0 => { s with DDRA := upd s.DDRA }
    | 1 => { s with DDRB := upd s.DDRB }
    | 2 => { s with DDRC := upd s.DDRC }
    | 3 => { s with DDRD := upd s.DDRD }
    | _ => s

/-- Modelled from the spec: the GPIO collaborator `write_pin(port, pin, level)` of `gpio.c`,
which is not part of the sources.  Level high sets the pin's bit in the port's output
register, low clears it; a port or pin number out of range has no effect. -/
def GPIO_writePin (port pin : Nat) (high : Bool) (s : Mcu) : Mcu :=
  if 8 ≤ pin then s
  else
    let upd : Nat → Nat := fun r =>
      if high then (r ||| (1 <<< pin)) % 256 else (r &&& bitNot (1 <<< pin)) % 256
    match port with
    | 0 => { s with PORTA := upd s.PORTA }
    | 1 => { s with PORTB := upd s.PORTB }
    | 2 => { s with PORTC := upd s.PORTC }
    | 3 => { s with PORTD := upd s.PORTD }
    | _ => s

/-! ## `icu.c` -/

/-- `Icu_init`: ICP1 pin as input, Timer1 control registers, counter and capture register
cleared, capture interrupt enabled. -/
def Icu_init (Config_Ptr : Icu_ConfigType) (s : Mcu) : Mcu :=
  { s with
    DDRD := (s.DDRD &&& bitNot (1 <<< PD6)) % 256
    TCCR1A := ((1 <<< FOC1A) ||| (1 <<< FOC1B)) % 256
    TCCR1B := ((s.TCCR1B &&& 0xA0) ||| Config_Ptr.clock ||| (Config_Ptr.edge.toNat <<< ICES1)) % 256
    TCNT1 := 0
    ICR1 := 0
    TIMSK := (s.TIMSK ||| (1 <<< TICIE1)) % 256 }

/-- `Icu_setCallBack`. -/
def Icu_setCallBack (a_ptr : Option CallbackFn) (s : Mcu) : Mcu :=
  { s with g_callBackPtr := a_ptr }

/-- `Icu_setEdgeDetectionType`. -/
def Icu_setEdgeDetectionType (edgeType : Icu_EdgeType) (s : Mcu) : Mcu :=
  { s with TCCR1B := ((s.TCCR1B &&& 0xBF) ||| (edgeType.toNat <<< ICES1)) % 256 }

/-- `Icu_getInputCaptureValue`. -/
def Icu_getInputCaptureValue (s : Mcu) : Nat := s.ICR1

/-- `Icu_clearTimerValue`. -/
def Icu_clearTimerValue (s : Mcu) : Mcu := { s with TCNT1 := 0 }

/-- `Icu_DeInit`. -/
def Icu_DeInit (s : Mcu) : Mcu :=
  { s with
    TCCR1A := 0
    TCCR1B := 0
    TCNT1 := 0
    ICR1 := 0
    TIMSK := (s.TIMSK &&& bitNot (1 <<< TICIE1)) % 256 }

/-! ## `ultrasonic.c` -/

/-- `Ultrasonic_Trigger`: pin high, busy delay, pin low.  The delay `_delay_us` consumes
time only and has no effect on the state. -/
def Ultrasonic_Trigger (cfg : UltrasonicConfig) (s : Mcu) : Mcu :=
  let s := GPIO_writePin cfg.ULTRASONIC_TRIGGER_PORT_ID cfg.ULTRASONIC_TRIGGER_PIN_ID true s
  GPIO_writePin cfg.ULTRASONIC_TRIGGER_PORT_ID cfg.ULTRASONIC_TRIGGER_PIN_ID false s

/-- The real-valued argument of `ceil` in `Ultrasonic_readDistance`:
`((float64)(SOUND_SPEED/2) / (float64)F_CPU) * (float64)g_highTime * (float64)PRESCALER`.
The halving is inside the first cast, hence a division of integers. -/
def distanceReal (cfg : UltrasonicConfig) (highTime : Nat) : ℚ :=
  (((cfg.SOUND_SPEED_CENTIMETERS_SECONDS / 2 : Nat) : ℚ) / (cfg.FREQ_CPU_CLOCK : ℚ))
    * (highTime : ℚ) * (cfg.ICU_TIMER_PRESCALER.toNat : ℚ)

/-- The conversion `(uint16)` of an integral `float64` value. -/
def castUint16 (z : ℤ) : Nat := z.toNat % 65536

/-- The chain of `if` / `else if` of `Ultrasonic_readDistance` acting on the `uint16`
variable `distance`. -/
def biasCorrection (distance : Nat) : Nat :=
  if 59 ≤ distance ∧ distance < 129 then (distance + 1) % 65536
  else if 129 ≤ distance ∧ distance < 199 then (distance + 2) % 65536
  else if 199 ≤ distance ∧ distance < 270 then (distance + 3) % 65536
  else if 270 ≤ distance ∧ distance < 343 then (distance + 4) % 65536
  else if 343 ≤ distance then (distance + 5) % 65536
  else distance

/-- `Ultrasonic_readDistance`: returned value and state on return. -/
def Ultrasonic_readDistance (cfg : UltrasonicConfig) (s : Mcu) : Nat × Mcu :=
  let s := Ultrasonic_Trigger cfg s
  if s.g_startCalculations = 1 then
    let s := { s with g_startCalculations := 0 }
    let s := { s with distance := castUint16 ⌈distanceReal cfg s.g_highTime⌉ }
    let s := { s with distance := biasCorrection s.distance }
    (s.distance, s)
  else
    (s.distance, s)

/-- `Ultrasonic_edgeProcessing`, the capture callback. -/
def Ultrasonic_edgeProcessing (s : Mcu) : Mcu :=
  let s := { s with g_interruptCounter := (s.g_interruptCounter + 1) % 256 }
  if s.g_interruptCounter = 1 then
    let s := Icu_clearTimerValue s
    Icu_setEdgeDetectionType .FALLING s
  else if s.g_interruptCounter = 2 then
    let s := { s with g_highTime := Icu_getInputCaptureValue s }
    let s := Icu_setEdgeDetectionType .RISING s
    let s := { s with g_interruptCounter := 0 }
    { s with g_startCalculations := 1 }
  else
    s

/-- Clock selector chosen by the preprocessor chain of `Ultrasonic_init`. -/
def Prescaler.clock : Prescaler → Nat
  | .div1 => F_CPU_CLOCK
  | .div8 => F_CPU_8
  | .div64 => F_CPU_64
  | .div256 => F_CPU_256
  | .div1024 => F_CPU_1024

/-- `Ultrasonic_init`. -/
def Ultrasonic_init (cfg : UltrasonicConfig) (s : Mcu) : Mcu :=
  let Icu_Config_Struct : Icu_ConfigType :=
    { clock := cfg.ICU_TIMER_PRESCALER.clock, edge := .RISING }
  let s := Icu_init Icu_Config_Struct s
  let s := Icu_setCallBack (some .edgeProcessing) s
  GPIO_setupPinDirection cfg.ULTRASONIC_TRIGGER_PORT_ID cfg.ULTRASONIC_TRIGGER_PIN_ID true s

/-! ## Interrupt dispatch -/

/-- Body of a procedure installed as capture callback. -/
def CallbackFn.run : CallbackFn → Mcu → Mcu
  | .edgeProcessing => Ultrasonic_edgeProcessing

/-- `ISR(TIMER1_CAPT_vect)`: call the callback when the pointer is not null. -/
def TIMER1_CAPT_ISR (s : Mcu) : Mcu :=
  match s.g_callBackPtr with
  | some f => f.run s
  | none => s

/-- The capture interrupt is deliverable: enabled in `TIMSK` and globally in `SREG`. -/
def captureInterruptEnabled (s : Mcu) : Bool :=
  s.TIMSK.testBit TICIE1 && s.SREG.testBit SREG_I

/-- Modelled from the spec: the timer hardware contract for a capture edge, which no source
file contains.  The hardware latches the timer count `count` into the capture register and
sets the capture-interrupt-pending flag; when the interrupt is deliverable the CPU
acknowledges the flag and vectors to the ISR, otherwise the flag stays pending. -/
def captureEvent (count : Nat) (s : Mcu) : Mcu :=
  let s := { s with ICR1 := count % 65536, TIFR := (s.TIFR ||| (1 <<< ICF1)) % 256 }
  if captureInterruptEnabled s then
    TIMER1_CAPT_ISR { s with TIFR := (s.TIFR &&& bitNot (1 <<< ICF1)) % 256 }
  else
    s

/-! ## Fixtures and foreground / callback sequences -/

/-- The configuration of the end-to-end scenarios: 16 MHz, prescaler 8, 34300 cm/s.  The
scenarios leave the trigger location and pulse width open; port B pin 5 and 10 µs are one
admissible choice. -/
def fixtureConfig : UltrasonicConfig :=
  { SOUND_SPEED_CENTIMETERS_SECONDS := 34300
    FREQ_CPU_CLOCK := 16000000
    ICU_TIMER_PRESCALER := .div8
    ULTRASONIC_TRIGGER_PORT_ID := 1
    ULTRASONIC_TRIGGER_PIN_ID := 5
    TRIGGER_PIN_DELAY_TIME_MICROSECONDS := 10 }

/-- One driver operation: a callback invocation, the capture hardware having latched `icr`
into `ICR1` beforehand, or a foreground read. -/
inductive Op where
  | edge (icr : Nat)
  | read
  deriving DecidableEq, Repr

/-- Effect of one operation on the state. -/
def Op.step (cfg : UltrasonicConfig) (s : Mcu) : Op → Mcu
  | .edge icr => Ultrasonic_edgeProcessing { s with ICR1 := icr }
  | .read => (Ultrasonic_readDistance cfg s).2

/-- Run a sequence of operations, first element first. -/
def runOps (cfg : UltrasonicConfig) (s : Mcu) (ops : List Op) : Mcu :=
  ops.foldl (Op.step cfg) s

/-- Number of callback invocations in a sequence. -/
def callbackCount (ops : List Op) : Nat :=
  (ops.filter fun o => match o with
    | .edge _ => true
    | .read => false).length

/-- The callback, entered in state `s`, takes its final `else` branch. -/
def reachesDefaultBranch (s : Mcu) : Bool :=
  decide ((s.g_interruptCounter + 1) % 256 ≠ 1 ∧ (s.g_interruptCounter + 1) % 256 ≠ 2)

/-- The bias table of the specification: the amount added per range of `raw_cm`. -/
def specBias (raw : Nat) : Nat :=
  if raw < 59 then 0
  else if raw < 129 then 1
  else if raw < 199 then 2
  else if raw < 270 then 3
  else if raw < 343 then 4
  else 5

/-- The correction `correct(raw)` of the specification. -/
def specCorrect (raw : Nat) : Nat := raw + specBias raw

/-- The edge polarity on which the next capture triggers, read from `ICES1` of `TCCR1B`. -/
def captureEdge (s : Mcu) : Icu_EdgeType :=
  if s.TCCR1B.testBit ICES1 then .RISING else .FALLING

/-- The end-to-end scenario: two callback invocations from `s`, the capture register holding
`t` at the second one, then one foreground read; the value returned by the read. -/
def scenarioDistance (cfg : UltrasonicConfig) (s : Mcu) (t : Nat) : Nat :=
  (Ultrasonic_readDistance cfg
    (Ultrasonic_edgeProcessing { Ultrasonic_edgeProcessing s with ICR1 := t })).1

/-! ## Observers of a GPIO pin -/

/-- Data-direction register of a port (ports A..D numbered 0..3). -/
def ddrOf (port : Nat) (s : Mcu) : Nat :=
  match port with
  | 0 => s.DDRA
  | 1 => s.DDRB
  | 2 => s.DDRC
  | 3 => s.DDRD
  | _ => 0

/-- Output register of a port (ports A..D numbered 0..3). -/
def portOf (port : Nat) (s : Mcu) : Nat :=
  match port with
  | 0 => s.PORTA
  | 1 => s.PORTB
  | 2 => s.PORTC
  | 3 => s.PORTD
  | _ => 0

/-- The pin is configured as an output. -/
def pinIsOutput (port pin : Nat) (s : Mcu) : Bool := (ddrOf port s).testBit pin

/-- The output level of the pin is high. -/
def pinIsHigh (port pin : Nat) (s : Mcu) : Bool := (portOf port s).testBit pin

/-- The capture-interrupt-pending flag `ICF1` of `TIFR`. -/
def capturePending (s : Mcu) : Bool := s.TIFR.testBit ICF1

/-- The capture interrupt is about to be served: an event is pending and the interrupt is
deliverable. -/
def captureVectors (s : Mcu) : Bool := capturePending s && captureInterruptEnabled s

/-- Modelled from the spec: the timer hardware contract for a pending capture, which no
source file contains.  When a capture is pending and the interrupt is deliverable, the CPU
acknowledges (clears) the pending flag and vectors to the ISR; otherwise nothing happens
and the flag stays as it is.  `captureEvent` is this step after the latch. -/
def deliverPendingCapture (s : Mcu) : Mcu :=
  if captureVectors s then
    TIMER1_CAPT_ISR { s with TIFR := (s.TIFR &&& bitNot (1 <<< ICF1)) % 256 }
  else
    s

/-! ## The foreground read with its observable actions

The body of `Ultrasonic_Trigger` and of `Ultrasonic_readDistance` is written once more over
an abstract machine that supplies the collaborator calls and the access to the C objects.
Run on the plain machine it is, by unfolding, the function of the section on
`ultrasonic.c`; run on the recording machine, every collaborator call and every load of the
ready flag appends its own action, stamped with the elapsed time, to a trace. -/

/-- Actions of the foreground that the claims on the trigger pulse speak about. -/
inductive Event where
  | gpioWrite (port pin : Nat) (high : Bool)
  | delayUs (us : Nat)
  | loadReady (value : Nat)
  deriving DecidableEq, Repr

/-- Record of a run: a lower bound of the CPU time elapsed so far, in microseconds, and the
actions performed, each with the time at which it started. -/
structure Trace where
  clock_us : Nat
  events : List (Nat × Event)
  deriving DecidableEq, Repr

/-- Append an action, stamped with the current time. -/
def Trace.record (tr : Trace) (e : Event) : Trace :=
  { tr with events := tr.events ++ [(tr.clock_us, e)] }

/-- Let time pass. -/
def Trace.advance (tr : Trace) (us : Nat) : Trace :=
  { tr with clock_us := tr.clock_us + us }

/-- What the foreground functions use of the machine they run on: `GPIO_writePin`,
`_delay_us`, the load of the volatile `g_startCalculations`, and reads and stores of the
other C objects. -/
structure Machine (σ : Type) where
  writePin : Nat → Nat → Bool → σ → σ
  delay_us : Nat → σ → σ
  loadReady : σ → Nat × σ
  objects : σ → Mcu
  store : (Mcu → Mcu) → σ → σ

/-- The machine of the state-only embedding: the GPIO collaborator acts on the registers,
the delay and the load leave the state alone. -/
def plainMachine : Machine Mcu :=
  { writePin := GPIO_writePin
    delay_us := fun _ s => s
    loadReady := fun s => (s.g_startCalculations, s)
    objects := fun s => s
    store := fun f s => f s }

/-- Modelled from the spec: the machine that records what the collaborators are asked to do.
`GPIO_writePin` acts on the registers as before and records the write; the busy delay
`_delay_us` of the C library, which is not part of the sources, holds the CPU for at least
the requested number of microseconds and records the request; a load of the ready flag
records the value loaded.  Register writes are counted as taking no time, so the clock is a
lower bound of the elapsed time. -/
def recordingMachine : Machine (Mcu × Trace) :=
  { writePin := fun port pin high x =>
      (GPIO_writePin port pin high x.1, x.2.record (Event.gpioWrite port pin high))
    delay_us := fun us x => (x.1, (x.2.record (Event.delayUs us)).advance us)
    loadReady := fun x =>
      (x.1.g_startCalculations, (x.1, x.2.record (Event.loadReady x.1.g_startCalculations)))
    objects := fun x => x.1
    store := fun f x => (f x.1, x.2) }

/-- The body of `Ultrasonic_Trigger` over a machine: pin high, busy delay, pin low. -/
def Ultrasonic_Trigger_on {σ : Type} (M : Machine σ) (cfg : UltrasonicConfig) (x : σ) : σ :=
  let x := M.writePin cfg.ULTRASONIC_TRIGGER_PORT_ID cfg.ULTRASONIC_TRIGGER_PIN_ID true x
  let x := M.delay_us cfg.TRIGGER_PIN_DELAY_TIME_MICROSECONDS x
  M.writePin cfg.ULTRASONIC_TRIGGER_PORT_ID cfg.ULTRASONIC_TRIGGER_PIN_ID false x

/-- The body of `Ultrasonic_readDistance` over a machine: the trigger, the load of
`g_startCalculations` for the test, then the branch on the loaded value. -/
def Ultrasonic_readDistance_on {σ : Type} (M : Machine σ) (cfg : UltrasonicConfig) (x : σ) :
    Nat × σ :=
  let x := Ultrasonic_Trigger_on M cfg x
  let r := M.loadReady x
  if r.1 = 1 then
    let x := M.store (fun s => { s with g_startCalculations := 0 }) r.2
    let x := M.store
      (fun s => { s with distance := castUint16 ⌈distanceReal cfg s.g_highTime⌉ }) x
    let x := M.store (fun s => { s with distance := biasCorrection s.distance }) x
    ((M.objects x).distance, x)
  else
    ((M.objects r.2).distance, r.2)

/-- The actions a run has added to a trace that held `before` on entry. -/
def newEvents (before after : Trace) : List (Nat × Event) :=
  after.events.drop before.events.length

/-! ## Start-up sequence of `main` -/

/-- The first statement of `main`: `SREG |= (1<<7)`. -/
def main_enableInterrupts (s : Mcu) : Mcu :=
  { s with SREG := (s.SREG ||| (1 <<< SREG_I)) % 256 }

/-- The state in which `Ultrasonic_init` calls `Icu_setCallBack`: `Icu_init` has returned,
the callback pointer is not yet written. -/
def Ultrasonic_init_atSetCallBack (cfg : UltrasonicConfig) (s : Mcu) : Mcu :=
  Icu_init { clock := cfg.ICU_TIMER_PRESCALER.clock, edge := .RISING } s

/-- The program points of the start-up of `main` up to the return of `Ultrasonic_init`, in
program order: entry, after `SREG |= (1<<7)`, after `LCD_init`, after `Icu_init`, after
`Icu_setCallBack`, after `GPIO_setupPinDirection`.  The LCD collaborator `LCD_init` is not
part of the sources and is an argument. -/
def main_startupStates (LCD_init : Mcu → Mcu) (cfg : UltrasonicConfig) (s : Mcu) : List Mcu :=
  let s1 := main_enableInterrupts s
  let s2 := LCD_init s1
  let s3 := Ultrasonic_init_atSetCallBack cfg s2
  let s4 := Icu_setCallBack (some .edgeProcessing) s3
  let s5 := GPIO_setupPinDirection cfg.ULTRASONIC_TRIGGER_PORT_ID
    cfg.ULTRASONIC_TRIGGER_PIN_ID true s4
  [s, s1, s2, s3, s4, s5]

/-- The state in which `Icu_setCallBack` is called during the start-up of `main`. -/
def main_atSetCallBack (LCD_init : Mcu → Mcu) (cfg : UltrasonicConfig) (s : Mcu) : Mcu :=
  Ultrasonic_init_atSetCallBack cfg (LCD_init (main_enableInterrupts s))

/-! ## Ghost record of the last completed capture -/

/-- One operation on the state paired with the ghost value: the capture-register value read
by the most recent callback invocation that took the second-edge branch, if any. -/
def Op.stepGhost (cfg : UltrasonicConfig) (sg : Mcu × Option Nat) : Op → Mcu × Option Nat
  | .edge icr =>
    let entry : Mcu := { sg.1 with ICR1 := icr }
    (Ultrasonic_edgeProcessing entry,
      if (entry.g_interruptCounter + 1) % 256 = 2 then some (Icu_getInputCaptureValue entry)
      else sg.2)
  | .read => ((Ultrasonic_readDistance cfg sg.1).2, sg.2)

/-- Run a sequence of operations with the ghost value, which starts as `none`. -/
def runOpsGhost (cfg : UltrasonicConfig) (s : Mcu) (ops : List Op) : Mcu × Option Nat :=
  ops.foldl (Op.stepGhost cfg) (s, none)

/-! ## Bit-level lemmas on register updates -/

theorem testBit_bitNot_one_shiftLeft (pin i : Nat) (hp : pin < 16) :
    (bitNot (1 <<< pin)).testBit i = (decide (i < 16) && decide (i ≠ pin)) := by
  have h16 : (65535 : Nat) = 2 ^ 16 - 1 := by norm_num
  have hlt : 1 <<< pin < 65536 := by
    rw [Nat.one_shiftLeft]
    calc 2 ^ pin < 2 ^ 16 := Nat.pow_lt_pow_right (by norm_num) hp
      _ = 65536 := by norm_num
  rw [bitNot, Nat.mod_eq_of_lt hlt, Nat.testBit_xor, h16, Nat.testBit_two_pow_sub_one,
    Nat.one_shiftLeft, Nat.testBit_two_pow]
  by_cases h1 : i < 16 <;> by_cases h2 : pin = i <;> simp [h1, h2, eq_comm]
  omega

theorem testBit_setBit (r pin i : Nat) :
    ((r ||| (1 <<< pin)) % 256).testBit i = (decide (i < 8) && (r.testBit i || decide (pin = i))) := by
  have h : (256 : Nat) = 2 ^ 8 := by norm_num
  rw [h, Nat.testBit_mod_two_pow, Nat.testBit_or, Nat.one_shiftLeft, Nat.testBit_two_pow]

theorem testBit_clearBit (r pin i : Nat) (hp : pin < 16) :
    ((r &&& bitNot (1 <<< pin)) % 256).testBit i =
      (decide (i < 8) && (r.testBit i && decide (i ≠ pin))) := by
  have h : (256 : Nat) = 2 ^ 8 := by norm_num
  rw [h, Nat.testBit_mod_two_pow, Nat.testBit_and, testBit_bitNot_one_shiftLeft _ _ hp]
  by_cases h1 : i < 8
  · have : i < 16 := by omega
    simp [h1, this]
  · simp [h1]

theorem testBit_0xBF (i : Nat) : Nat.testBit 0xBF i = (decide (i < 8) && decide (i ≠ 6)) := by
  have h : (0xBF : Nat) = (255 &&& bitNot (1 <<< 6)) % 256 := by decide
  rw [h, testBit_clearBit _ _ _ (by norm_num)]
  have h255 : (255 : Nat) = 2 ^ 8 - 1 := by norm_num
  rw [h255, Nat.testBit_two_pow_sub_one]
  by_cases h1 : i < 8 <;> simp [h1]

theorem testBit_setEdge (x : Nat) (e : Icu_EdgeType) (i : Nat) :
    (((x &&& 0xBF) ||| (e.toNat <<< ICES1)) % 256).testBit i =
      if i = ICES1 then decide (e = .RISING) else (decide (i < 8) && x.testBit i) := by
  have h : (256 : Nat) = 2 ^ 8 := by norm_num
  rw [h, Nat.testBit_mod_two_pow, Nat.testBit_or, Nat.testBit_and, testBit_0xBF]
  cases e
  · have he : Icu_EdgeType.FALLING.toNat <<< ICES1 = 0 := by decide
    rw [he, Nat.zero_testBit]
    by_cases h1 : i < 8 <;> by_cases h2 : i = 6 <;> simp [h1, h2, ICES1]
  · have he : Icu_EdgeType.RISING.toNat <<< ICES1 = 2 ^ 6 := by decide
    rw [he, Nat.testBit_two_pow]
    by_cases h1 : i < 8 <;> by_cases h2 : i = 6 <;> simp [h1, h2, ICES1]
    all_goals omega

/-! ## Frame lemmas of the GPIO collaborator and the trigger -/

theorem GPIO_writePin_frame (port pin : Nat) (high : Bool) (s : Mcu) :
    GPIO_writePin port pin high s =
      { s with
        PORTA := (GPIO_writePin port pin high s).PORTA
        PORTB := (GPIO_writePin port pin high s).PORTB
        PORTC := (GPIO_writePin port pin high s).PORTC
        PORTD := (GPIO_writePin port pin high s).PORTD } := by
  by_cases hp : 8 ≤ pin
  · simp only [GPIO_writePin, if_pos hp]
  · obtain _ | _ | _ | _ | p := port <;> simp only [GPIO_writePin, if_neg hp]

theorem Ultrasonic_Trigger_frame (cfg : UltrasonicConfig) (s : Mcu) :
    Ultrasonic_Trigger cfg s =
      { s with
        PORTA := (Ultrasonic_Trigger cfg s).PORTA
        PORTB := (Ultrasonic_Trigger cfg s).PORTB
        PORTC := (Ultrasonic_Trigger cfg s).PORTC
        PORTD := (Ultrasonic_Trigger cfg s).PORTD } := by
  unfold Ultrasonic_Trigger
  simp only []
  rw [GPIO_writePin_frame _ _ false, GPIO_writePin_frame _ _ true]

@[simp] theorem Ultrasonic_Trigger_ready (cfg : UltrasonicConfig) (s : Mcu) :
    (Ultrasonic_Trigger cfg s).g_startCalculations = s.g_startCalculations := by
  rw [Ultrasonic_Trigger_frame]

@[simp] theorem Ultrasonic_Trigger_highTime (cfg : UltrasonicConfig) (s : Mcu) :
    (Ultrasonic_Trigger cfg s).g_highTime = s.g_highTime := by
  rw [Ultrasonic_Trigger_frame]

@[simp] theorem Ultrasonic_Trigger_counter (cfg : UltrasonicConfig) (s : Mcu) :
    (Ultrasonic_Trigger cfg s).g_interruptCounter = s.g_interruptCounter := by
  rw [Ultrasonic_Trigger_frame]

@[simp] theorem Ultrasonic_Trigger_distance (cfg : UltrasonicConfig) (s : Mcu) :
    (Ultrasonic_Trigger cfg s).distance = s.distance := by
  rw [Ultrasonic_Trigger_frame]

@[simp] theorem Ultrasonic_Trigger_TCNT1 (cfg : UltrasonicConfig) (s : Mcu) :
    (Ultrasonic_Trigger cfg s).TCNT1 = s.TCNT1 := by
  rw [Ultrasonic_Trigger_frame]

@[simp] theorem Ultrasonic_Trigger_TCCR1B (cfg : UltrasonicConfig) (s : Mcu) :
    (Ultrasonic_Trigger cfg s).TCCR1B = s.TCCR1B := by
  rw [Ultrasonic_Trigger_frame]

@[simp] theorem Ultrasonic_Trigger_ICR1 (cfg : UltrasonicConfig) (s : Mcu) :
    (Ultrasonic_Trigger cfg s).ICR1 = s.ICR1 := by
  rw [Ultrasonic_Trigger_frame]

/-! ## The conversion under the fixtures -/

theorem distanceReal_fixture (t : Nat) :
    distanceReal fixtureConfig t = (343 * t : ℚ) / 40000 := by
  simp only [distanceReal, fixtureConfig, Prescaler.toNat]
  norm_num
  ring

theorem ceil_div_40000 (n : Nat) :
    ⌈(n : ℚ) / 40000⌉ = (((n + 39999) / 40000 : Nat) : ℤ) := by
  rw [Int.ceil_eq_iff]
  have hq : 40000 * ((n + 39999) / 40000) ≤ n + 39999 := Nat.mul_div_le _ _
  have hr : n + 39999 < 40000 * ((n + 39999) / 40000) + 40000 := by
    have := Nat.div_add_mod (n + 39999) 40000
    have := Nat.mod_lt (n + 39999) (by norm_num : 40000 > 0)
    omega
  generalize (n + 39999) / 40000 = q at hq hr
  have hq' : (40000 : ℚ) * q ≤ n + 39999 := by exact_mod_cast hq
  have hr' : (n : ℚ) + 39999 < 40000 * q + 40000 := by exact_mod_cast hr
  have hr'' : (n : ℚ) + 1 ≤ 40000 * q + 1 := by
    have : n + 1 ≤ 40000 * q + 1 := by omega
    exact_mod_cast this
  constructor
  · rw [lt_div_iff₀ (by norm_num : (0 : ℚ) < 40000)]
    push_cast
    linarith
  · rw [div_le_iff₀ (by norm_num : (0 : ℚ) < 40000)]
    push_cast
    linarith

theorem rawDistance_fixture (t : Nat) :
    castUint16 ⌈distanceReal fixtureConfig t⌉ = ((343 * t + 39999) / 40000) % 65536 := by
  have h : distanceReal fixtureConfig t = ((343 * t : Nat) : ℚ) / 40000 := by
    rw [distanceReal_fixture]; push_cast; rfl
  rw [h, ceil_div_40000, castUint16, Int.toNat_natCast]

theorem ceil_spec_formula (t : Nat) :
    Int.toNat ⌈((34300 / 2 : ℚ) / 16000000) * (t : ℚ) * 8⌉ = (343 * t + 39999) / 40000 := by
  have h : ((34300 / 2 : ℚ) / 16000000) * (t : ℚ) * 8 = ((343 * t : Nat) : ℚ) / 40000 := by
    push_cast; ring
  rw [h, ceil_div_40000, Int.toNat_natCast]

theorem biasCorrection_eq_specCorrect (raw : Nat) (h : raw + 5 < 65536) :
    biasCorrection raw = specCorrect raw := by
  unfold biasCorrection specCorrect specBias
  split_ifs <;> omega

/-! ## Step lemmas of the two driver operations -/

theorem Ultrasonic_edgeProcessing_first (s : Mcu) (h : s.g_interruptCounter = 0) :
    Ultrasonic_edgeProcessing s =
      { s with
        g_interruptCounter := 1
        TCNT1 := 0
        TCCR1B := ((s.TCCR1B &&& 0xBF) ||| (Icu_EdgeType.FALLING.toNat <<< ICES1)) % 256 } := by
  simp [Ultrasonic_edgeProcessing, h, Icu_clearTimerValue, Icu_setEdgeDetectionType]

theorem Ultrasonic_edgeProcessing_second (s : Mcu) (h : s.g_interruptCounter = 1) :
    Ultrasonic_edgeProcessing s =
      { s with
        g_highTime := s.ICR1
        TCCR1B := ((s.TCCR1B &&& 0xBF) ||| (Icu_EdgeType.RISING.toNat <<< ICES1)) % 256
        g_interruptCounter := 0
        g_startCalculations := 1 } := by
  simp [Ultrasonic_edgeProcessing, h, Icu_getInputCaptureValue, Icu_setEdgeDetectionType]

theorem Ultrasonic_readDistance_ready (cfg : UltrasonicConfig) (s : Mcu)
    (h : s.g_startCalculations = 1) :
    Ultrasonic_readDistance cfg s =
      (biasCorrection (castUint16 ⌈distanceReal cfg s.g_highTime⌉),
        { Ultrasonic_Trigger cfg s with
          g_startCalculations := 0
          distance := biasCorrection (castUint16 ⌈distanceReal cfg s.g_highTime⌉) }) := by
  simp [Ultrasonic_readDistance, h]

theorem Ultrasonic_readDistance_stale (cfg : UltrasonicConfig) (s : Mcu)
    (h : s.g_startCalculations ≠ 1) :
    Ultrasonic_readDistance cfg s = (s.distance, Ultrasonic_Trigger cfg s) := by
  simp [Ultrasonic_readDistance, h]

theorem captureEdge_setEdge (x : Nat) (e : Icu_EdgeType) (s : Mcu)
    (h : s.TCCR1B = ((x &&& 0xBF) ||| (e.toNat <<< ICES1)) % 256) : captureEdge s = e := by
  unfold captureEdge
  rw [h, testBit_setEdge]
  cases e <;> simp

theorem scenarioDistance_eq (cfg : UltrasonicConfig) (s : Mcu) (t : Nat)
    (h0 : s.g_interruptCounter = 0) :
    scenarioDistance cfg s t = biasCorrection (castUint16 ⌈distanceReal cfg t⌉) := by
  unfold scenarioDistance
  rw [Ultrasonic_edgeProcessing_first s h0, Ultrasonic_edgeProcessing_second _ rfl,
    Ultrasonic_readDistance_ready _ _ rfl]

theorem scenarioDistance_fixture (s : Mcu) (t : Nat) (h0 : s.g_interruptCounter = 0)
    (ht : t < 65536) :
    scenarioDistance fixtureConfig s t = specCorrect ((343 * t + 39999) / 40000) := by
  have hb : (343 * t + 39999) / 40000 ≤ 562 := by omega
  rw [scenarioDistance_eq _ _ _ h0, rawDistance_fixture,
    Nat.mod_eq_of_lt (by omega), biasCorrection_eq_specCorrect _ (by omega)]

/-! ## The trigger pulse acts on one output bit -/

theorem Ultrasonic_Trigger_eq (cfg : UltrasonicConfig) (s : Mcu) :
    Ultrasonic_Trigger cfg s =
      if 8 ≤ cfg.ULTRASONIC_TRIGGER_PIN_ID then s
      else
        let pulse : Nat → Nat := fun r =>
          (((r ||| (1 <<< cfg.ULTRASONIC_TRIGGER_PIN_ID)) % 256)
            &&& bitNot (1 <<< cfg.ULTRASONIC_TRIGGER_PIN_ID)) % 256
        match cfg.ULTRASONIC_TRIGGER_PORT_ID with
        | 0 => { s with PORTA := pulse s.PORTA }
        | 1 => { s with PORTB := pulse s.PORTB }
        | 2 => { s with PORTC := pulse s.PORTC }
        | 3 => { s with PORTD := pulse s.PORTD }
        | _ => s := by
  unfold Ultrasonic_Trigger
  generalize cfg.ULTRASONIC_TRIGGER_PIN_ID = pin
  generalize cfg.ULTRASONIC_TRIGGER_PORT_ID = port
  by_cases hp : 8 ≤ pin
  · simp only [GPIO_writePin, if_pos hp]
  · obtain _ | _ | _ | _ | p := port <;> simp [GPIO_writePin, if_neg hp]

theorem first_edge_facts (s : Mcu) (h : s.g_interruptCounter = 0) :
    (Ultrasonic_edgeProcessing s).g_interruptCounter = 1 ∧
      captureEdge (Ultrasonic_edgeProcessing s) = .FALLING := by
  rw [Ultrasonic_edgeProcessing_first s h]
  exact ⟨rfl, captureEdge_setEdge s.TCCR1B _ _ rfl⟩

theorem second_edge_facts (s : Mcu) (h : s.g_interruptCounter = 1) :
    (Ultrasonic_edgeProcessing s).g_interruptCounter = 0 ∧
      captureEdge (Ultrasonic_edgeProcessing s) = .RISING := by
  rw [Ultrasonic_edgeProcessing_second s h]
  exact ⟨rfl, captureEdge_setEdge s.TCCR1B _ _ rfl⟩

/-! ## Alternation of the edge counter and the capture edge -/

theorem Ultrasonic_readDistance_counter (cfg : UltrasonicConfig) (s : Mcu) :
    (Ultrasonic_readDistance cfg s).2.g_interruptCounter = s.g_interruptCounter := by
  by_cases h : s.g_startCalculations = 1
  · rw [Ultrasonic_readDistance_ready cfg s h]
    simp
  · rw [Ultrasonic_readDistance_stale cfg s h]
    simp

theorem Ultrasonic_readDistance_captureEdge (cfg : UltrasonicConfig) (s : Mcu) :
    captureEdge (Ultrasonic_readDistance cfg s).2 = captureEdge s := by
  by_cases h : s.g_startCalculations = 1
  · rw [Ultrasonic_readDistance_ready cfg s h]
    simp [captureEdge]
  · rw [Ultrasonic_readDistance_stale cfg s h]
    simp [captureEdge]

theorem callbackCount_edge (icr : Nat) (ops : List Op) :
    callbackCount (Op.edge icr :: ops) = callbackCount ops + 1 := by
  simp [callbackCount]

theorem callbackCount_read (ops : List Op) :
    callbackCount (Op.read :: ops) = callbackCount ops := by
  simp [callbackCount]

theorem runOps_phase (cfg : UltrasonicConfig) (ops : List Op) :
    ∀ s : Mcu,
      (s.g_interruptCounter = 0 ∧ captureEdge s = .RISING) ∨
        (s.g_interruptCounter = 1 ∧ captureEdge s = .FALLING) →
      (((runOps cfg s ops).g_interruptCounter = 0 ∧ captureEdge (runOps cfg s ops) = .RISING) ∨
        ((runOps cfg s ops).g_interruptCounter = 1 ∧
          captureEdge (runOps cfg s ops) = .FALLING)) ∧
      (runOps cfg s ops).g_interruptCounter % 2 =
        (s.g_interruptCounter + callbackCount ops) % 2 := by
  induction ops with
  | nil =>
    intro s hs
    exact ⟨hs, rfl⟩
  | cons op ops ih =>
    intro s hs
    have hrun : runOps cfg s (op :: ops) = runOps cfg (Op.step cfg s op) ops := rfl
    rw [hrun]
    cases op with
    | edge icr =>
      rw [callbackCount_edge]
      rcases hs with ⟨hc, _⟩ | ⟨hc, _⟩
      · have hc' : ({ s with ICR1 := icr } : Mcu).g_interruptCounter = 0 := hc
        have hstep : (Op.step cfg s (Op.edge icr)).g_interruptCounter = 1 ∧
            captureEdge (Op.step cfg s (Op.edge icr)) = .FALLING := first_edge_facts _ hc'
        obtain ⟨ih1, ih2⟩ := ih (Op.step cfg s (Op.edge icr)) (Or.inr hstep)
        refine ⟨ih1, ?_⟩
        rw [ih2, hstep.1, hc]
        omega
      · have hc' : ({ s with ICR1 := icr } : Mcu).g_interruptCounter = 1 := hc
        have hstep : (Op.step cfg s (Op.edge icr)).g_interruptCounter = 0 ∧
            captureEdge (Op.step cfg s (Op.edge icr)) = .RISING := second_edge_facts _ hc'
        obtain ⟨ih1, ih2⟩ := ih (Op.step cfg s (Op.edge icr)) (Or.inl hstep)
        refine ⟨ih1, ?_⟩
        rw [ih2, hstep.1, hc]
        omega
    | read =>
      rw [callbackCount_read]
      have hk : (Op.step cfg s Op.read).g_interruptCounter = s.g_interruptCounter :=
        Ultrasonic_readDistance_counter cfg s
      have he : captureEdge (Op.step cfg s Op.read) = captureEdge s :=
        Ultrasonic_readDistance_captureEdge cfg s
      obtain ⟨ih1, ih2⟩ := ih (Op.step cfg s Op.read) (by rw [hk, he]; exact hs)
      exact ⟨ih1, by rw [ih2, hk]⟩

/-! ## The control register written by `Icu_init` -/

theorem testBit_0xA0 (i : Nat) : Nat.testBit 0xA0 i = (decide (7 = i) || decide (5 = i)) := by
  have h : (0xA0 : Nat) = 2 ^ 7 ||| 2 ^ 5 := by decide
  rw [h, Nat.testBit_or, Nat.testBit_two_pow, Nat.testBit_two_pow]

theorem testBit_edge_shift (e : Icu_EdgeType) (i : Nat) :
    (e.toNat <<< ICES1).testBit i = (decide (6 = i) && decide (e = .RISING)) := by
  cases e
  · have he : Icu_EdgeType.FALLING.toNat <<< ICES1 = 0 := by decide
    rw [he, Nat.zero_testBit]
    simp
  · have he : Icu_EdgeType.RISING.toNat <<< ICES1 = 2 ^ 6 := by decide
    rw [he, Nat.testBit_two_pow]
    simp

theorem testBit_TCCR1B_init (x c : Nat) (e : Icu_EdgeType) (i : Nat) :
    (((x &&& 0xA0) ||| c ||| (e.toNat <<< ICES1)) % 256).testBit i =
      (decide (i < 8) &&
        ((x.testBit i && (decide (7 = i) || decide (5 = i))) || c.testBit i ||
          (decide (6 = i) && decide (e = .RISING)))) := by
  have h : (256 : Nat) = 2 ^ 8 := by norm_num
  rw [h, Nat.testBit_mod_two_pow, Nat.testBit_or, Nat.testBit_or, Nat.testBit_and,
    testBit_0xA0, testBit_edge_shift]

theorem testBit_clock_high (c i : Nat) (hc : c < 8) (hi : 3 ≤ i) : c.testBit i = false := by
  apply Nat.testBit_lt_two_pow
  calc c < 2 ^ 3 := hc
    _ ≤ 2 ^ i := Nat.pow_le_pow_right (by norm_num) hi

theorem TCCR1B_init_clockSelect (x c : Nat) (e : Icu_EdgeType) (hc : c < 8) :
    (((x &&& 0xA0) ||| c ||| (e.toNat <<< ICES1)) % 256) % 8 = c := by
  apply Nat.eq_of_testBit_eq
  intro i
  have h : (8 : Nat) = 2 ^ 3 := by norm_num
  rw [h, Nat.testBit_mod_two_pow, testBit_TCCR1B_init]
  by_cases hi : i < 3
  · have h8 : i < 8 := by omega
    have h7 : ¬ 7 = i := by omega
    have h5 : ¬ 5 = i := by omega
    have h6 : ¬ 6 = i := by omega
    simp [hi, h8, h7, h5, h6]
  · rw [testBit_clock_high c i hc (by omega)]
    simp [hi]

/-! ## Pin observers under the GPIO collaborator and the trigger -/

theorem ddrOf_setupPinDirection_output (port pin : Nat) (s : Mcu) (hport : port < 4)
    (hpin : pin < 8) :
    ddrOf port (GPIO_setupPinDirection port pin true s) = (ddrOf port s ||| (1 <<< pin)) % 256 := by
  have hp : ¬ 8 ≤ pin := by omega
  obtain _ | _ | _ | _ | p := port
  · simp [GPIO_setupPinDirection, ddrOf, if_neg hp]
  · simp [GPIO_setupPinDirection, ddrOf, if_neg hp]
  · simp [GPIO_setupPinDirection, ddrOf, if_neg hp]
  · simp [GPIO_setupPinDirection, ddrOf, if_neg hp]
  · omega

theorem portOf_setupPinDirection (q port pin : Nat) (output : Bool) (s : Mcu) :
    portOf q (GPIO_setupPinDirection port pin output s) = portOf q s := by
  by_cases hp : 8 ≤ pin
  · simp only [GPIO_setupPinDirection, if_pos hp]
  · obtain _ | _ | _ | _ | p := port <;> obtain _ | _ | _ | _ | r := q <;>
      simp [GPIO_setupPinDirection, portOf, if_neg hp]

theorem portOf_Ultrasonic_Trigger (cfg : UltrasonicConfig) (s : Mcu)
    (hport : cfg.ULTRASONIC_TRIGGER_PORT_ID < 4) (hpin : cfg.ULTRASONIC_TRIGGER_PIN_ID < 8) :
    portOf cfg.ULTRASONIC_TRIGGER_PORT_ID (Ultrasonic_Trigger cfg s) =
      (((portOf cfg.ULTRASONIC_TRIGGER_PORT_ID s ||| (1 <<< cfg.ULTRASONIC_TRIGGER_PIN_ID)) % 256)
        &&& bitNot (1 <<< cfg.ULTRASONIC_TRIGGER_PIN_ID)) % 256 := by
  rw [Ultrasonic_Trigger_eq]
  generalize cfg.ULTRASONIC_TRIGGER_PIN_ID = pin at hpin ⊢
  generalize cfg.ULTRASONIC_TRIGGER_PORT_ID = port at hport ⊢
  have hp : ¬ 8 ≤ pin := by omega
  obtain _ | _ | _ | _ | p := port
  · simp [portOf, if_neg hp]
  · simp [portOf, if_neg hp]
  · simp [portOf, if_neg hp]
  · simp [portOf, if_neg hp]
  · omega

theorem pinIsHigh_Ultrasonic_Trigger (cfg : UltrasonicConfig) (s : Mcu)
    (hport : cfg.ULTRASONIC_TRIGGER_PORT_ID < 4) (hpin : cfg.ULTRASONIC_TRIGGER_PIN_ID < 8) :
    pinIsHigh cfg.ULTRASONIC_TRIGGER_PORT_ID cfg.ULTRASONIC_TRIGGER_PIN_ID
      (Ultrasonic_Trigger cfg s) = false := by
  unfold pinIsHigh
  rw [portOf_Ultrasonic_Trigger cfg s hport hpin,
    testBit_clearBit _ _ _ (by omega : cfg.ULTRASONIC_TRIGGER_PIN_ID < 16)]
  simp

theorem portOf_update_statics (q : Nat) (s : Mcu) (r d : Nat) :
    portOf q { s with g_startCalculations := r, distance := d } = portOf q s := by
  unfold portOf
  split <;> rfl

theorem Ultrasonic_edgeProcessing_default (s : Mcu)
    (h1 : (s.g_interruptCounter + 1) % 256 ≠ 1) (h2 : (s.g_interruptCounter + 1) % 256 ≠ 2) :
    Ultrasonic_edgeProcessing s =
      { s with g_interruptCounter := (s.g_interruptCounter + 1) % 256 } := by
  simp [Ultrasonic_edgeProcessing, h1, h2]

/-! ## Start-up, ghost run and monotonicity lemmas -/

theorem GPIO_setupPinDirection_frame (port pin : Nat) (output : Bool) (s : Mcu) :
    GPIO_setupPinDirection port pin output s =
      { s with
        DDRA := (GPIO_setupPinDirection port pin output s).DDRA
        DDRB := (GPIO_setupPinDirection port pin output s).DDRB
        DDRC := (GPIO_setupPinDirection port pin output s).DDRC
        DDRD := (GPIO_setupPinDirection port pin output s).DDRD } := by
  by_cases hp : 8 ≤ pin
  · simp only [GPIO_setupPinDirection, if_pos hp]
  · obtain _ | _ | _ | _ | p := port <;> simp only [GPIO_setupPinDirection, if_neg hp]

theorem Ultrasonic_init_statics (cfg : UltrasonicConfig) (s : Mcu) :
    (Ultrasonic_init cfg s).g_interruptCounter = s.g_interruptCounter ∧
    (Ultrasonic_init cfg s).g_startCalculations = s.g_startCalculations ∧
    (Ultrasonic_init cfg s).g_highTime = s.g_highTime ∧
    (Ultrasonic_init cfg s).distance = s.distance ∧
    (Ultrasonic_init cfg s).TCCR1B =
      ((s.TCCR1B &&& 0xA0) ||| cfg.ICU_TIMER_PRESCALER.clock |||
        (Icu_EdgeType.RISING.toNat <<< ICES1)) % 256 := by
  unfold Ultrasonic_init
  simp only []
  rw [GPIO_setupPinDirection_frame]
  exact ⟨rfl, rfl, rfl, rfl, rfl⟩

theorem Prescaler_clock_lt (p : Prescaler) : p.clock < 8 := by
  cases p <;> decide

theorem captureEdge_Ultrasonic_init (cfg : UltrasonicConfig) (s : Mcu) :
    captureEdge (Ultrasonic_init cfg s) = .RISING := by
  unfold captureEdge
  rw [(Ultrasonic_init_statics cfg s).2.2.2.2, testBit_TCCR1B_init]
  simp [ICES1]

theorem edgeProcessing_ready_highTime (s : Mcu) :
    if (s.g_interruptCounter + 1) % 256 = 2 then
      (Ultrasonic_edgeProcessing s).g_startCalculations = 1 ∧
        (Ultrasonic_edgeProcessing s).g_highTime = s.ICR1
    else
      (Ultrasonic_edgeProcessing s).g_startCalculations = s.g_startCalculations ∧
        (Ultrasonic_edgeProcessing s).g_highTime = s.g_highTime := by
  by_cases h2 : (s.g_interruptCounter + 1) % 256 = 2
  · have h1 : (s.g_interruptCounter + 1) % 256 ≠ 1 := by omega
    simp [Ultrasonic_edgeProcessing, h1, h2, Icu_getInputCaptureValue, Icu_setEdgeDetectionType]
  · by_cases h1 : (s.g_interruptCounter + 1) % 256 = 1
    · simp [Ultrasonic_edgeProcessing, h1, Icu_clearTimerValue, Icu_setEdgeDetectionType]
    · simp [Ultrasonic_edgeProcessing, h1, h2]

theorem readDistance_ready_highTime (cfg : UltrasonicConfig) (s : Mcu) :
    (Ultrasonic_readDistance cfg s).2.g_highTime = s.g_highTime ∧
    ((Ultrasonic_readDistance cfg s).2.g_startCalculations = 1 → s.g_startCalculations = 1) := by
  by_cases h : s.g_startCalculations = 1
  · rw [Ultrasonic_readDistance_ready cfg s h]
    simp
  · rw [Ultrasonic_readDistance_stale cfg s h]
    simp

theorem stepGhost_inv (cfg : UltrasonicConfig) (sg : Mcu × Option Nat) (op : Op)
    (hnone : sg.2 = none → sg.1.g_startCalculations ≠ 1)
    (hsome : ∀ v, sg.2 = some v → sg.1.g_highTime = v) :
    ((Op.stepGhost cfg sg op).2 = none → (Op.stepGhost cfg sg op).1.g_startCalculations ≠ 1) ∧
    (∀ v, (Op.stepGhost cfg sg op).2 = some v → (Op.stepGhost cfg sg op).1.g_highTime = v) ∧
    (Op.stepGhost cfg sg op).1 = Op.step cfg sg.1 op := by
  cases op with
  | edge icr =>
    have hE := edgeProcessing_ready_highTime { sg.1 with ICR1 := icr }
    by_cases h2 : (sg.1.g_interruptCounter + 1) % 256 = 2
    · simp only [h2, if_true] at hE
      simp only [Op.stepGhost, h2, if_true, Icu_getInputCaptureValue]
      refine ⟨fun h => by simp at h, fun v hv => ?_, rfl⟩
      rw [hE.2]
      exact Option.some.inj hv
    · simp only [h2, if_false] at hE
      simp only [Op.stepGhost, h2, if_false]
      refine ⟨fun h => ?_, fun v hv => ?_, rfl⟩
      · rw [hE.1]; exact hnone h
      · rw [hE.2]; exact hsome v hv
  | read =>
    have hR := readDistance_ready_highTime cfg sg.1
    simp only [Op.stepGhost]
    refine ⟨fun h hr => hnone h (hR.2 hr), fun v hv => ?_, rfl⟩
    rw [hR.1]
    exact hsome v hv

theorem foldl_stepGhost_inv (cfg : UltrasonicConfig) (ops : List Op) :
    ∀ sg : Mcu × Option Nat,
      (sg.2 = none → sg.1.g_startCalculations ≠ 1) →
      (∀ v, sg.2 = some v → sg.1.g_highTime = v) →
      ((ops.foldl (Op.stepGhost cfg) sg).2 = none →
        (ops.foldl (Op.stepGhost cfg) sg).1.g_startCalculations ≠ 1) ∧
      (∀ v, (ops.foldl (Op.stepGhost cfg) sg).2 = some v →
        (ops.foldl (Op.stepGhost cfg) sg).1.g_highTime = v) ∧
      (ops.foldl (Op.stepGhost cfg) sg).1 = runOps cfg sg.1 ops := by
  induction ops with
  | nil =>
    intro sg h1 h2
    exact ⟨h1, h2, rfl⟩
  | cons op ops ih =>
    intro sg h1 h2
    obtain ⟨k1, k2, k3⟩ := stepGhost_inv cfg sg op h1 h2
    obtain ⟨r1, r2, r3⟩ := ih (Op.stepGhost cfg sg op) k1 k2
    refine ⟨r1, r2, ?_⟩
    rw [List.foldl_cons, r3, k3]
    rfl

theorem specCorrect_mono (a b : Nat) (h : a ≤ b) : specCorrect a ≤ specCorrect b := by
  unfold specCorrect specBias
  split_ifs <;> omega

theorem captureInterruptEnabled_atSetCallBack (LCD_init : Mcu → Mcu) (cfg : UltrasonicConfig)
    (s : Mcu) (hSREG : ∀ x : Mcu, (LCD_init x).SREG = x.SREG) :
    captureInterruptEnabled (main_atSetCallBack LCD_init cfg s) = true := by
  have hT : (main_atSetCallBack LCD_init cfg s).TIMSK.testBit TICIE1 = true := by
    show (((LCD_init (main_enableInterrupts s)).TIMSK ||| (1 <<< TICIE1)) % 256).testBit TICIE1
      = true
    rw [testBit_setBit]
    simp [TICIE1]
  have hS : (main_atSetCallBack LCD_init cfg s).SREG.testBit SREG_I = true := by
    show (LCD_init (main_enableInterrupts s)).SREG.testBit SREG_I = true
    rw [hSREG]
    show ((s.SREG ||| (1 <<< SREG_I)) % 256).testBit SREG_I = true
    rw [testBit_setBit]
    simp [SREG_I]
  simp only [captureInterruptEnabled, hT, hS, Bool.and_self]

theorem captureEvent_null_callback (count : Nat) (s : Mcu)
    (hen : captureInterruptEnabled s = true) (hp : s.g_callBackPtr = none) :
    captureEvent count s =
      { s with
        ICR1 := count % 65536
        TIFR := (((s.TIFR ||| (1 <<< ICF1)) % 256) &&& bitNot (1 <<< ICF1)) % 256 } := by
  have hen2 : captureInterruptEnabled
      { s with ICR1 := count % 65536, TIFR := (s.TIFR ||| (1 <<< ICF1)) % 256 } = true := hen
  unfold captureEvent
  simp only []
  rw [if_pos hen2]
  unfold TIMER1_CAPT_ISR
  simp only []
  rw [hp]

/-! ## Delivery of a pending capture and the recorded run -/

theorem TIMER1_CAPT_ISR_TIFR (s : Mcu) : (TIMER1_CAPT_ISR s).TIFR = s.TIFR := by
  unfold TIMER1_CAPT_ISR
  split
  · rename_i f _
    cases f
    simp only [CallbackFn.run, Ultrasonic_edgeProcessing, Icu_clearTimerValue,
      Icu_setEdgeDetectionType, Icu_getInputCaptureValue]
    split_ifs <;> rfl
  · rfl

theorem captureEvent_eq_deliver (count : Nat) (s : Mcu) :
    captureEvent count s =
      deliverPendingCapture
        { s with ICR1 := count % 65536, TIFR := (s.TIFR ||| (1 <<< ICF1)) % 256 } := by
  have hpend : capturePending
      { s with ICR1 := count % 65536, TIFR := (s.TIFR ||| (1 <<< ICF1)) % 256 } = true := by
    show ((s.TIFR ||| (1 <<< ICF1)) % 256).testBit ICF1 = true
    rw [testBit_setBit]
    simp [ICF1]
  unfold captureEvent deliverPendingCapture captureVectors
  simp only [hpend, Bool.true_and]

theorem Icu_init_TIMSK_bit (Config : Icu_ConfigType) (s : Mcu) :
    (Icu_init Config s).TIMSK.testBit TICIE1 = true := by
  show ((s.TIMSK ||| (1 <<< TICIE1)) % 256).testBit TICIE1 = true
  rw [testBit_setBit]
  simp [TICIE1]

theorem capturePending_acknowledged (s : Mcu) :
    capturePending
      (TIMER1_CAPT_ISR { s with TIFR := (s.TIFR &&& bitNot (1 <<< ICF1)) % 256 }) = false := by
  unfold capturePending
  rw [TIMER1_CAPT_ISR_TIFR]
  show ((s.TIFR &&& bitNot (1 <<< ICF1)) % 256).testBit ICF1 = false
  rw [testBit_clearBit _ _ _ (by decide : ICF1 < 16)]
  simp

theorem Ultrasonic_Trigger_recorded (cfg : UltrasonicConfig) (s : Mcu) (tr : Trace) :
    Ultrasonic_Trigger_on recordingMachine cfg (s, tr) =
      (Ultrasonic_Trigger cfg s,
        { clock_us := tr.clock_us + cfg.TRIGGER_PIN_DELAY_TIME_MICROSECONDS
          events := tr.events ++
            [(tr.clock_us,
                Event.gpioWrite cfg.ULTRASONIC_TRIGGER_PORT_ID cfg.ULTRASONIC_TRIGGER_PIN_ID true),
              (tr.clock_us, Event.delayUs cfg.TRIGGER_PIN_DELAY_TIME_MICROSECONDS),
              (tr.clock_us + cfg.TRIGGER_PIN_DELAY_TIME_MICROSECONDS,
                Event.gpioWrite cfg.ULTRASONIC_TRIGGER_PORT_ID cfg.ULTRASONIC_TRIGGER_PIN_ID
                  false)] }) := by
  simp [Ultrasonic_Trigger_on, recordingMachine, Ultrasonic_Trigger, Trace.record,
    Trace.advance]

theorem Ultrasonic_readDistance_recorded (cfg : UltrasonicConfig) (s : Mcu) (tr : Trace) :
    ((Ultrasonic_readDistance_on recordingMachine cfg (s, tr)).1,
        (Ultrasonic_readDistance_on recordingMachine cfg (s, tr)).2.1) =
      Ultrasonic_readDistance cfg s ∧
    (Ultrasonic_readDistance_on recordingMachine cfg (s, tr)).2.2 =
      { clock_us := tr.clock_us + cfg.TRIGGER_PIN_DELAY_TIME_MICROSECONDS
        events := tr.events ++
          [(tr.clock_us,
              Event.gpioWrite cfg.ULTRASONIC_TRIGGER_PORT_ID cfg.ULTRASONIC_TRIGGER_PIN_ID true),
            (tr.clock_us, Event.delayUs cfg.TRIGGER_PIN_DELAY_TIME_MICROSECONDS),
            (tr.clock_us + cfg.TRIGGER_PIN_DELAY_TIME_MICROSECONDS,
              Event.gpioWrite cfg.ULTRASONIC_TRIGGER_PORT_ID cfg.ULTRASONIC_TRIGGER_PIN_ID false),
            (tr.clock_us + cfg.TRIGGER_PIN_DELAY_TIME_MICROSECONDS,
              Event.loadReady s.g_startCalculations)] } := by
  unfold Ultrasonic_readDistance_on
  simp only [Ultrasonic_Trigger_recorded]
  by_cases h : s.g_startCalculations = 1
  · simp [recordingMachine, Ultrasonic_readDistance, h, Trace.record]
  · simp [recordingMachine, Ultrasonic_readDistance, h, Trace.record]

theorem pinIsHigh_writePin_high (port pin : Nat) (s : Mcu) (hport : port < 4) (hpin : pin < 8) :
    pinIsHigh port pin (GPIO_writePin port pin true s) = true := by
  have hp : ¬ 8 ≤ pin := by omega
  have hbit : ∀ r : Nat, ((r ||| (1 <<< pin)) % 256).testBit pin = true := by
    intro r
    rw [testBit_setBit]
    simp [hpin]
  obtain _ | _ | _ | _ | p := port
  · simp [pinIsHigh, portOf, GPIO_writePin, if_neg hp, hbit]
  · simp [pinIsHigh, portOf, GPIO_writePin, if_neg hp, hbit]
  · simp [pinIsHigh, portOf, GPIO_writePin, if_neg hp, hbit]
  · simp [pinIsHigh, portOf, GPIO_writePin, if_neg hp, hbit]
  · omega

/-! ## Claims -/

/-- C1: under the fixtures (16 MHz, prescaler 8, 34300 cm/s) and with exact rational
arithmetic, from any state with `edge_count = 0` (in particular the one right after
`Ultrasonic_init`, whatever `ready` and the retained distance are), two callback
invocations with the capture register holding the 16-bit value `t` at the second one,
followed by one read, return `correct(ceil((34300/2) / 16000000 * t * 8))`; for `t = 58`,
`3000` and `7000` the returned values are 1, 26 and 62. -/
theorem end_to_end_distance (s : Mcu) (h0 : s.g_interruptCounter = 0) :
    (∀ t : Nat, t < 65536 →
      scenarioDistance fixtureConfig s t =
        specCorrect (Int.toNat ⌈((34300 / 2 : ℚ) / 16000000) * (t : ℚ) * 8⌉)) ∧
    scenarioDistance fixtureConfig s 58 = 1 ∧
    scenarioDistance fixtureConfig s 3000 = 26 ∧
    scenarioDistance fixtureConfig s 7000 = 62 := by
  refine ⟨fun t ht => ?_, ?_, ?_, ?_⟩
  · rw [ceil_spec_formula, scenarioDistance_fixture s t h0 ht]
  · rw [scenarioDistance_fixture s 58 h0 (by decide)]; decide
  · rw [scenarioDistance_fixture s 3000 h0 (by decide)]; decide
  · rw [scenarioDistance_fixture s 7000 h0 (by decide)]; decide

/-- Witness for C1: the state right after `Ultrasonic_init` on the reset state. -/
theorem end_to_end_distance_witness :
    (Ultrasonic_init fixtureConfig resetState).g_interruptCounter = 0 ∧
    (Ultrasonic_init fixtureConfig resetState).g_startCalculations = 0 ∧
    (Ultrasonic_init fixtureConfig resetState).distance = 0 ∧
    scenarioDistance fixtureConfig (Ultrasonic_init fixtureConfig resetState) 7000 = 62 :=
  ⟨by decide, by decide, by decide,
    (end_to_end_distance (Ultrasonic_init fixtureConfig resetState) (by decide)).2.2.2⟩


/-- C2: the bias correction of `Ultrasonic_readDistance`, as a function of the 16-bit
`raw_cm`, adds 0 on [0, 59), 1 on [59, 129), 2 on [129, 199), 3 on [199, 270), 4 on
[270, 343) and 5 from 343 on, whenever the corrected value fits in 16 bits; the eleven
boundary values of the specification are as listed there. -/
theorem biasCorrection_table :
    (∀ raw : Nat, raw < 65536 →
      (raw < 59 → biasCorrection raw = raw) ∧
      (59 ≤ raw → raw < 129 → biasCorrection raw = raw + 1) ∧
      (129 ≤ raw → raw < 199 → biasCorrection raw = raw + 2) ∧
      (199 ≤ raw → raw < 270 → biasCorrection raw = raw + 3) ∧
      (270 ≤ raw → raw < 343 → biasCorrection raw = raw + 4) ∧
      (343 ≤ raw → raw + 5 < 65536 → biasCorrection raw = raw + 5)) ∧
    biasCorrection 58 = 58 ∧ biasCorrection 59 = 60 ∧ biasCorrection 128 = 129 ∧
    biasCorrection 129 = 131 ∧ biasCorrection 198 = 200 ∧ biasCorrection 199 = 202 ∧
    biasCorrection 269 = 272 ∧ biasCorrection 270 = 274 ∧ biasCorrection 342 = 346 ∧
    biasCorrection 343 = 348 ∧ biasCorrection 400 = 405 := by
  refine ⟨?_, by decide, by decide, by decide, by decide, by decide, by decide, by decide,
    by decide, by decide, by decide, by decide⟩
  intro raw _
  unfold biasCorrection
  refine ⟨?_, ?_, ?_, ?_, ?_, ?_⟩ <;> intros <;> split_ifs <;> omega

/-- Witness for C2: the table at `raw_cm = 300` (range [270, 343), corrected value 304). -/
theorem biasCorrection_table_witness :
    (300 : Nat) < 65536 ∧ 270 ≤ 300 ∧ 300 < 343 ∧ biasCorrection 300 = 300 + 4 :=
  ⟨by decide, by decide, by decide,
    (biasCorrection_table.1 300 (by decide)).2.2.2.2.1 (by decide) (by decide)⟩

/-- C3 (stale read): in every state in which `ready` is not set, `Ultrasonic_readDistance`
returns the retained distance and leaves `ready`, `high_time_ticks`, `edge_count`, the
retained distance, the timer count and the capture edge polarity unchanged.  The retained
distance is the value returned by the previous call (every call leaves its returned value
in the retained distance, and neither the callback nor `Ultrasonic_init` touch it), and it
is 0 after reset. -/
theorem stale_read (cfg : UltrasonicConfig) :
    (∀ s : Mcu, s.g_startCalculations ≠ 1 →
      (Ultrasonic_readDistance cfg s).1 = s.distance ∧
      (Ultrasonic_readDistance cfg s).2.g_startCalculations = s.g_startCalculations ∧
      (Ultrasonic_readDistance cfg s).2.g_highTime = s.g_highTime ∧
      (Ultrasonic_readDistance cfg s).2.g_interruptCounter = s.g_interruptCounter ∧
      (Ultrasonic_readDistance cfg s).2.distance = s.distance ∧
      (Ultrasonic_readDistance cfg s).2.TCNT1 = s.TCNT1 ∧
      captureEdge (Ultrasonic_readDistance cfg s).2 = captureEdge s) ∧
    (∀ s : Mcu, (Ultrasonic_readDistance cfg s).2.distance = (Ultrasonic_readDistance cfg s).1) ∧
    (∀ s : Mcu, (Ultrasonic_edgeProcessing s).distance = s.distance) ∧
    (∀ s : Mcu, (Ultrasonic_init cfg s).distance = s.distance) ∧
    resetState.distance = 0 := by
  refine ⟨fun s h => ?_, fun s => ?_, fun s => ?_, fun s => ?_, rfl⟩
  · rw [Ultrasonic_readDistance_stale cfg s h]
    simp [captureEdge]
  · by_cases h : s.g_startCalculations = 1
    · rw [Ultrasonic_readDistance_ready cfg s h]
    · rw [Ultrasonic_readDistance_stale cfg s h]
      simp
  · unfold Ultrasonic_edgeProcessing
    simp only [Icu_clearTimerValue, Icu_setEdgeDetectionType, Icu_getInputCaptureValue]
    split_ifs <;> rfl
  · unfold Ultrasonic_init GPIO_setupPinDirection
    simp only [Icu_setCallBack, Icu_init]
    split
    · rfl
    · split <;> rfl

/-- Witness for C3: a read right after `Ultrasonic_init`, where `ready` is false, returns the
retained distance 0. -/
theorem stale_read_witness :
    (Ultrasonic_init fixtureConfig resetState).g_startCalculations ≠ 1 ∧
    (Ultrasonic_readDistance fixtureConfig (Ultrasonic_init fixtureConfig resetState)).1 =
      (Ultrasonic_init fixtureConfig resetState).distance :=
  ⟨by decide,
    ((stale_read fixtureConfig).1 (Ultrasonic_init fixtureConfig resetState) (by decide)).1⟩

/-- C6 (second-edge step): entered with `edge_count = 1`, `Ultrasonic_edgeProcessing` copies
the capture register `ICR1` into `high_time_ticks`, sets the capture edge to rising, sets
`ready`, resets `edge_count` to 0 and changes neither the timer count nor the retained
distance. -/
theorem second_edge_step (s : Mcu) (h : s.g_interruptCounter = 1) :
    (Ultrasonic_edgeProcessing s).g_highTime = s.ICR1 ∧
    captureEdge (Ultrasonic_edgeProcessing s) = .RISING ∧
    (Ultrasonic_edgeProcessing s).g_startCalculations = 1 ∧
    (Ultrasonic_edgeProcessing s).g_interruptCounter = 0 ∧
    (Ultrasonic_edgeProcessing s).TCNT1 = s.TCNT1 ∧
    (Ultrasonic_edgeProcessing s).distance = s.distance := by
  rw [Ultrasonic_edgeProcessing_second s h]
  exact ⟨rfl, captureEdge_setEdge s.TCCR1B _ _ rfl, rfl, rfl, rfl, rfl⟩

/-- Witness for C6: the state after the first edge following `Ultrasonic_init`, with 3000
latched in the capture register. -/
theorem second_edge_step_witness :
    ({ Ultrasonic_edgeProcessing (Ultrasonic_init fixtureConfig resetState) with
        ICR1 := 3000 } : Mcu).g_interruptCounter = 1 ∧
    (Ultrasonic_edgeProcessing { Ultrasonic_edgeProcessing (Ultrasonic_init fixtureConfig
        resetState) with ICR1 := 3000 }).g_highTime = 3000 :=
  ⟨by decide, (second_edge_step _ (by decide)).1⟩

/-- C7 (first-edge step): entered with `edge_count = 0`, `Ultrasonic_edgeProcessing` sets
`edge_count` to 1, clears the timer count `TCNT1`, sets the capture edge to falling and
leaves `ready`, `high_time_ticks`, the capture register and the retained distance
unchanged. -/
theorem first_edge_step (s : Mcu) (h : s.g_interruptCounter = 0) :
    (Ultrasonic_edgeProcessing s).g_interruptCounter = 1 ∧
    (Ultrasonic_edgeProcessing s).TCNT1 = 0 ∧
    captureEdge (Ultrasonic_edgeProcessing s) = .FALLING ∧
    (Ultrasonic_edgeProcessing s).g_startCalculations = s.g_startCalculations ∧
    (Ultrasonic_edgeProcessing s).g_highTime = s.g_highTime ∧
    (Ultrasonic_edgeProcessing s).ICR1 = s.ICR1 ∧
    (Ultrasonic_edgeProcessing s).distance = s.distance := by
  rw [Ultrasonic_edgeProcessing_first s h]
  exact ⟨rfl, rfl, captureEdge_setEdge s.TCCR1B _ _ rfl, rfl, rfl, rfl, rfl⟩

/-- Witness for C7: the first edge right after `Ultrasonic_init`. -/
theorem first_edge_step_witness :
    (Ultrasonic_init fixtureConfig resetState).g_interruptCounter = 0 ∧
    captureEdge (Ultrasonic_edgeProcessing (Ultrasonic_init fixtureConfig resetState)) =
      .FALLING :=
  ⟨by decide, (first_edge_step _ (by decide)).2.2.1⟩

/-- C4 (edge-polarity alternation): from a state with `edge_count = 0` and rising polarity
(the state right after `Ultrasonic_init`), after any finite sequence of callback
invocations and reads containing `k` callback invocations: if `k` is even then
`edge_count = 0` and the capture edge is rising, if `k` is odd then `edge_count = 1` and
the capture edge is falling; `edge_count` is 0 or 1 between operations and no callback
invocation of the sequence takes the default branch. -/
theorem edge_polarity_alternation (cfg : UltrasonicConfig) (s0 : Mcu)
    (h0 : s0.g_interruptCounter = 0) (hr : captureEdge s0 = .RISING) (ops : List Op) :
    (callbackCount ops % 2 = 0 →
      (runOps cfg s0 ops).g_interruptCounter = 0 ∧ captureEdge (runOps cfg s0 ops) = .RISING) ∧
    (callbackCount ops % 2 = 1 →
      (runOps cfg s0 ops).g_interruptCounter = 1 ∧
        captureEdge (runOps cfg s0 ops) = .FALLING) ∧
    ((runOps cfg s0 ops).g_interruptCounter = 0 ∨ (runOps cfg s0 ops).g_interruptCounter = 1) ∧
    (∀ (pre post : List Op) (icr : Nat), ops = pre ++ Op.edge icr :: post →
      reachesDefaultBranch { runOps cfg s0 pre with ICR1 := icr } = false) := by
  obtain ⟨hph, hpar⟩ := runOps_phase cfg ops s0 (Or.inl ⟨h0, hr⟩)
  rw [h0, Nat.zero_add] at hpar
  refine ⟨fun hk => ?_, fun hk => ?_, ?_, ?_⟩
  · rcases hph with h | h
    · exact h
    · rw [h.1, hk] at hpar; omega
  · rcases hph with h | h
    · rw [h.1, hk] at hpar; omega
    · exact h
  · rcases hph with h | h
    · exact Or.inl h.1
    · exact Or.inr h.1
  · intro pre post icr _
    obtain ⟨hpre, _⟩ := runOps_phase cfg pre s0 (Or.inl ⟨h0, hr⟩)
    rcases hpre with h | h <;> simp [reachesDefaultBranch, h.1]

/-- Witness for C4: three callback invocations and a read after `Ultrasonic_init`. -/
theorem edge_polarity_alternation_witness :
    (Ultrasonic_init fixtureConfig resetState).g_interruptCounter = 0 ∧
    captureEdge (Ultrasonic_init fixtureConfig resetState) = .RISING ∧
    callbackCount [Op.edge 0, Op.read, Op.edge 7000, Op.edge 5] % 2 = 1 ∧
    (runOps fixtureConfig (Ultrasonic_init fixtureConfig resetState)
        [Op.edge 0, Op.read, Op.edge 7000, Op.edge 5]).g_interruptCounter = 1 ∧
    captureEdge (runOps fixtureConfig (Ultrasonic_init fixtureConfig resetState)
        [Op.edge 0, Op.read, Op.edge 7000, Op.edge 5]) = .FALLING :=
  ⟨by decide, by decide, by decide,
    (edge_polarity_alternation fixtureConfig (Ultrasonic_init fixtureConfig resetState)
      (by decide) (by decide) [Op.edge 0, Op.read, Op.edge 7000, Op.edge 5]).2.1 (by decide)⟩

/-- C8 (`Icu_init` postcondition): for every prior register content, every 3-bit clock
selector `c` and every edge `e`, after `Icu_init` the waveform-generation bits
WGM13..WGM10 and the compare-output bits of `TCCR1A` are 0 (normal mode), the clock-select
bits of `TCCR1B` equal `c`, the edge-select bit `ICES1` equals `e`, `TCNT1 = 0`,
`ICR1 = 0`, and `TICIE1` is set in `TIMSK` with the other bits of `TIMSK` unchanged. -/
theorem Icu_init_postcondition (s : Mcu) (c : Nat) (e : Icu_EdgeType) (hc : c < 8) :
    (Icu_init ⟨c, e⟩ s).TCCR1A.testBit WGM10 = false ∧
    (Icu_init ⟨c, e⟩ s).TCCR1A.testBit WGM11 = false ∧
    (Icu_init ⟨c, e⟩ s).TCCR1B.testBit WGM12 = false ∧
    (Icu_init ⟨c, e⟩ s).TCCR1B.testBit WGM13 = false ∧
    (Icu_init ⟨c, e⟩ s).TCCR1A.testBit COM1A1 = false ∧
    (Icu_init ⟨c, e⟩ s).TCCR1A.testBit COM1A0 = false ∧
    (Icu_init ⟨c, e⟩ s).TCCR1A.testBit COM1B1 = false ∧
    (Icu_init ⟨c, e⟩ s).TCCR1A.testBit COM1B0 = false ∧
    (Icu_init ⟨c, e⟩ s).TCCR1B % 8 = c ∧
    (Icu_init ⟨c, e⟩ s).TCCR1B.testBit ICES1 = decide (e = .RISING) ∧
    captureEdge (Icu_init ⟨c, e⟩ s) = e ∧
    (Icu_init ⟨c, e⟩ s).TCNT1 = 0 ∧
    (Icu_init ⟨c, e⟩ s).ICR1 = 0 ∧
    (Icu_init ⟨c, e⟩ s).TIMSK.testBit TICIE1 = true ∧
    (∀ i : Nat, i < 8 → i ≠ TICIE1 →
      (Icu_init ⟨c, e⟩ s).TIMSK.testBit i = s.TIMSK.testBit i) := by
  have h3 : c.testBit 3 = false := testBit_clock_high c 3 hc (by norm_num)
  have h4 : c.testBit 4 = false := testBit_clock_high c 4 hc (by norm_num)
  have h6 : c.testBit 6 = false := testBit_clock_high c 6 hc (by norm_num)
  have hedge : (Icu_init ⟨c, e⟩ s).TCCR1B.testBit ICES1 = decide (e = .RISING) := by
    show (((s.TCCR1B &&& 0xA0) ||| c ||| (e.toNat <<< ICES1)) % 256).testBit 6 = _
    rw [testBit_TCCR1B_init, h6]
    simp
  have hA : (Icu_init ⟨c, e⟩ s).TCCR1A = 12 := by
    simp only [Icu_init]
    decide
  rw [hA]
  refine ⟨by decide, by decide, ?_, ?_, by decide, by decide, by decide, by decide,
    TCCR1B_init_clockSelect _ c e hc, hedge, ?_, rfl, rfl, ?_, ?_⟩
  · show (((s.TCCR1B &&& 0xA0) ||| c ||| (e.toNat <<< ICES1)) % 256).testBit 3 = _
    rw [testBit_TCCR1B_init, h3]
    simp
  · show (((s.TCCR1B &&& 0xA0) ||| c ||| (e.toNat <<< ICES1)) % 256).testBit 4 = _
    rw [testBit_TCCR1B_init, h4]
    simp
  · unfold captureEdge
    rw [hedge]
    cases e <;> simp
  · simp only [Icu_init, testBit_setBit, TICIE1]
    simp
  · intro i hi hne
    simp only [Icu_init, testBit_setBit]
    have : ¬ TICIE1 = i := fun h => hne h.symm
    simp [hi, this]

/-- Witness for C8: `Icu_init` with clock selector 2 (CPU clock / 8) and rising edge on the
reset state. -/
theorem Icu_init_postcondition_witness :
    (2 : Nat) < 8 ∧ (Icu_init ⟨2, .RISING⟩ resetState).TCCR1B % 8 = 2 ∧
    captureEdge (Icu_init ⟨2, .RISING⟩ resetState) = .RISING :=
  ⟨by decide, (Icu_init_postcondition resetState 2 .RISING (by decide)).2.2.2.2.2.2.2.2.1,
    (Icu_init_postcondition resetState 2 .RISING (by decide)).2.2.2.2.2.2.2.2.2.2.1⟩

/-- C9: `Icu_setEdgeDetectionType e` sets the edge-select bit `ICES1` (bit 6) of `TCCR1B`
to `e` and leaves every other bit of `TCCR1B`, the timer count `TCNT1`, the capture
register `ICR1` and `TIMSK` unchanged; calling it twice with the same `e` equals calling it
once. -/
theorem Icu_setEdgeDetectionType_frame (e : Icu_EdgeType) (s : Mcu) :
    (Icu_setEdgeDetectionType e s).TCCR1B.testBit 6 = decide (e = .RISING) ∧
    captureEdge (Icu_setEdgeDetectionType e s) = e ∧
    (∀ i : Nat, i < 8 → i ≠ 6 →
      (Icu_setEdgeDetectionType e s).TCCR1B.testBit i = s.TCCR1B.testBit i) ∧
    (Icu_setEdgeDetectionType e s).TCNT1 = s.TCNT1 ∧
    (Icu_setEdgeDetectionType e s).ICR1 = s.ICR1 ∧
    (Icu_setEdgeDetectionType e s).TIMSK = s.TIMSK ∧
    Icu_setEdgeDetectionType e (Icu_setEdgeDetectionType e s) =
      Icu_setEdgeDetectionType e s := by
  refine ⟨?_, captureEdge_setEdge s.TCCR1B e _ rfl, ?_, rfl, rfl, rfl, ?_⟩
  · show (((s.TCCR1B &&& 0xBF) ||| (e.toNat <<< ICES1)) % 256).testBit 6 = _
    rw [testBit_setEdge]
    simp [ICES1]
  · intro i hi hne
    show (((s.TCCR1B &&& 0xBF) ||| (e.toNat <<< ICES1)) % 256).testBit i = _
    rw [testBit_setEdge]
    simp [ICES1, hi, hne]
  · have hreg : (((((s.TCCR1B &&& 0xBF) ||| (e.toNat <<< ICES1)) % 256) &&& 0xBF) |||
        (e.toNat <<< ICES1)) % 256 = ((s.TCCR1B &&& 0xBF) ||| (e.toNat <<< ICES1)) % 256 := by
      apply Nat.eq_of_testBit_eq
      intro i
      simp only [testBit_setEdge]
      by_cases h6 : i = ICES1 <;> by_cases h8 : i < 8 <;> simp [h6, h8]
    simp only [Icu_setEdgeDetectionType, hreg]

/-- Witness for C9: switching to falling after `Ultrasonic_init` keeps the clock-select bit
CS11 of `TCCR1B`. -/
theorem Icu_setEdgeDetectionType_frame_witness :
    (1 : Nat) < 8 ∧ (1 : Nat) ≠ 6 ∧
    (Icu_setEdgeDetectionType .FALLING (Ultrasonic_init fixtureConfig resetState)).TCCR1B.testBit 1
      = (Ultrasonic_init fixtureConfig resetState).TCCR1B.testBit 1 :=
  ⟨by decide, by decide,
    (Icu_setEdgeDetectionType_frame .FALLING (Ultrasonic_init fixtureConfig resetState)).2.2.1 1
      (by decide) (by decide)⟩

/-- C10 (`Icu_DeInit` stops capture delivery): for every prior state, after `Icu_DeInit`
`TCCR1A = 0`, `TCCR1B = 0`, `TCNT1 = 0`, `ICR1 = 0` and `TICIE1` is clear in `TIMSK` with
the other bits of `TIMSK` unchanged; the capture interrupt is then not deliverable, so a
capture event injected afterwards only latches the count and leaves the flag pending: the
ISR and hence the callback do not run, and `ready`, `edge_count` and `high_time_ticks`
keep their values. -/
theorem Icu_DeInit_stops_capture (s : Mcu) (count : Nat) :
    (Icu_DeInit s).TCCR1A = 0 ∧
    (Icu_DeInit s).TCCR1B = 0 ∧
    (Icu_DeInit s).TCNT1 = 0 ∧
    (Icu_DeInit s).ICR1 = 0 ∧
    (Icu_DeInit s).TIMSK.testBit TICIE1 = false ∧
    (∀ i : Nat, i < 8 → i ≠ TICIE1 → (Icu_DeInit s).TIMSK.testBit i = s.TIMSK.testBit i) ∧
    captureInterruptEnabled (Icu_DeInit s) = false ∧
    captureEvent count (Icu_DeInit s) =
      { Icu_DeInit s with ICR1 := count % 65536, TIFR := (s.TIFR ||| (1 <<< ICF1)) % 256 } ∧
    (captureEvent count (Icu_DeInit s)).g_startCalculations = s.g_startCalculations ∧
    (captureEvent count (Icu_DeInit s)).g_interruptCounter = s.g_interruptCounter ∧
    (captureEvent count (Icu_DeInit s)).g_highTime = s.g_highTime := by
  have hbit : (Icu_DeInit s).TIMSK.testBit TICIE1 = false := by
    simp only [Icu_DeInit, testBit_clearBit _ _ _ (by decide : TICIE1 < 16)]
    simp
  have hev : captureEvent count (Icu_DeInit s) =
      { Icu_DeInit s with ICR1 := count % 65536, TIFR := (s.TIFR ||| (1 <<< ICF1)) % 256 } := by
    have hdis : captureInterruptEnabled
        { Icu_DeInit s with ICR1 := count % 65536,
                            TIFR := ((Icu_DeInit s).TIFR ||| (1 <<< ICF1)) % 256 } = false := by
      simp only [captureInterruptEnabled, hbit, Bool.false_and]
    simp only [captureEvent, hdis]
    rfl
  refine ⟨rfl, rfl, rfl, rfl, hbit, ?_, ?_, hev, ?_, ?_, ?_⟩
  · intro i hi hne
    simp only [Icu_DeInit, testBit_clearBit _ _ _ (by decide : TICIE1 < 16)]
    simp [hi, hne]
  · simp only [captureInterruptEnabled, hbit, Bool.false_and]
  · rw [hev]; rfl
  · rw [hev]; rfl
  · rw [hev]; rfl

/-- Witness for C10: interrupts globally enabled, `Ultrasonic_init`, then `Icu_DeInit` and
an injected capture: `ready` remains false and the compare-interrupt bit 4 of `TIMSK` is
kept. -/
theorem Icu_DeInit_stops_capture_witness :
    (4 : Nat) < 8 ∧ (4 : Nat) ≠ TICIE1 ∧
    (Icu_DeInit (Ultrasonic_init fixtureConfig { resetState with SREG := 128, TIMSK := 16 })).TIMSK.testBit 4
      = ({ resetState with SREG := 128, TIMSK := 16 } : Mcu).TIMSK.testBit 4 ∧
    (captureEvent 7000 (Icu_DeInit (Ultrasonic_init fixtureConfig
      { resetState with SREG := 128, TIMSK := 16 }))).g_startCalculations = 0 :=
  ⟨by decide, by decide,
    (Icu_DeInit_stops_capture (Ultrasonic_init fixtureConfig
      { resetState with SREG := 128, TIMSK := 16 }) 7000).2.2.2.2.2.1 4 (by decide) (by decide),
    (Icu_DeInit_stops_capture (Ultrasonic_init fixtureConfig
      { resetState with SREG := 128, TIMSK := 16 }) 7000).2.2.2.2.2.2.2.2.1⟩

/-- C11, as stated, fails: with the trigger pin's output bit set beforehand (port B pin 5
under the fixtures), the pin is an output and still high after `Ultrasonic_init`. -/
theorem trigger_pin_stays_high_counterexample :
    pinIsOutput 1 5 (Ultrasonic_init fixtureConfig { resetState with PORTB := 32 }) = true ∧
    pinIsHigh 1 5 (Ultrasonic_init fixtureConfig { resetState with PORTB := 32 }) = true := by
  decide

/-- C11, amended: for every prior state and every valid trigger location, after
`Ultrasonic_init` the trigger pin's direction is output and its output level is the one
it had before the call, since `Ultrasonic_init` never writes the pin; it is low on return
when it was low before, as it is after reset. -/
theorem Ultrasonic_init_trigger_pin (cfg : UltrasonicConfig) (s : Mcu)
    (hport : cfg.ULTRASONIC_TRIGGER_PORT_ID < 4) (hpin : cfg.ULTRASONIC_TRIGGER_PIN_ID < 8) :
    pinIsOutput cfg.ULTRASONIC_TRIGGER_PORT_ID cfg.ULTRASONIC_TRIGGER_PIN_ID
      (Ultrasonic_init cfg s) = true ∧
    pinIsHigh cfg.ULTRASONIC_TRIGGER_PORT_ID cfg.ULTRASONIC_TRIGGER_PIN_ID
      (Ultrasonic_init cfg s) =
      pinIsHigh cfg.ULTRASONIC_TRIGGER_PORT_ID cfg.ULTRASONIC_TRIGGER_PIN_ID s ∧
    (pinIsHigh cfg.ULTRASONIC_TRIGGER_PORT_ID cfg.ULTRASONIC_TRIGGER_PIN_ID s = false →
      pinIsHigh cfg.ULTRASONIC_TRIGGER_PORT_ID cfg.ULTRASONIC_TRIGGER_PIN_ID
        (Ultrasonic_init cfg s) = false) ∧
    pinIsHigh cfg.ULTRASONIC_TRIGGER_PORT_ID cfg.ULTRASONIC_TRIGGER_PIN_ID resetState = false := by
  have hlevel : pinIsHigh cfg.ULTRASONIC_TRIGGER_PORT_ID cfg.ULTRASONIC_TRIGGER_PIN_ID
      (Ultrasonic_init cfg s) =
      pinIsHigh cfg.ULTRASONIC_TRIGGER_PORT_ID cfg.ULTRASONIC_TRIGGER_PIN_ID s := by
    unfold pinIsHigh Ultrasonic_init
    simp only []
    rw [portOf_setupPinDirection]
    unfold portOf Icu_setCallBack Icu_init
    split <;> rfl
  refine ⟨?_, hlevel, fun h => by rw [hlevel, h], ?_⟩
  · unfold pinIsOutput Ultrasonic_init
    simp only []
    rw [ddrOf_setupPinDirection_output _ _ _ hport hpin, testBit_setBit]
    simp [hpin]
  · unfold pinIsHigh portOf resetState
    split <;> simp

/-- Witness for C11 (amended): `Ultrasonic_init` under the fixtures on the reset state. -/
theorem Ultrasonic_init_trigger_pin_witness :
    fixtureConfig.ULTRASONIC_TRIGGER_PORT_ID < 4 ∧ fixtureConfig.ULTRASONIC_TRIGGER_PIN_ID < 8 ∧
    pinIsHigh fixtureConfig.ULTRASONIC_TRIGGER_PORT_ID fixtureConfig.ULTRASONIC_TRIGGER_PIN_ID
      resetState = false ∧
    pinIsHigh fixtureConfig.ULTRASONIC_TRIGGER_PORT_ID fixtureConfig.ULTRASONIC_TRIGGER_PIN_ID
      (Ultrasonic_init fixtureConfig resetState) = false :=
  ⟨by decide, by decide, by decide,
    (Ultrasonic_init_trigger_pin fixtureConfig resetState (by decide) (by decide)).2.2.1
      (by decide)⟩

/-- C12, as stated, fails: with the capture-interrupt-pending flag set beforehand and the
global interrupt bit clear, so that no interrupt can be taken and acknowledge the flag,
the flag is still set after `Icu_init`, also after the hardware had its chance to serve
it. -/
theorem Icu_init_keeps_pending_counterexample :
    capturePending ({ resetState with TIFR := 32 } : Mcu) = true ∧
    ({ resetState with TIFR := 32 } : Mcu).SREG.testBit SREG_I = false ∧
    capturePending (Icu_init ⟨F_CPU_8, .RISING⟩ { resetState with TIFR := 32 }) = true ∧
    capturePending
      (deliverPendingCapture (Icu_init ⟨F_CPU_8, .RISING⟩ { resetState with TIFR := 32 }))
      = true := by
  decide

/-- C12, amended: `Icu_init` does not itself clear a pending capture event, it never writes
the interrupt flag register.  For every prior hardware state in which the
capture-interrupt-pending flag is set: when the global interrupt bit is clear, no capture
interrupt is served and the flag is still set after `Icu_init` has returned; when the
global interrupt bit is set, as in the start-up of `main`, the capture is deliverable once
`Icu_init` has set `TICIE1`, so the CPU acknowledges the flag and vectors to the capture
ISR, before any new edge, and the flag is clear after that. -/
theorem Icu_init_pending_capture (Config : Icu_ConfigType) (s : Mcu)
    (hpend : capturePending s = true) :
    (Icu_init Config s).TIFR = s.TIFR ∧
    capturePending (Icu_init Config s) = true ∧
    (s.SREG.testBit SREG_I = false →
      captureVectors (Icu_init Config s) = false ∧
      deliverPendingCapture (Icu_init Config s) = Icu_init Config s ∧
      capturePending (deliverPendingCapture (Icu_init Config s)) = true) ∧
    (s.SREG.testBit SREG_I = true →
      captureVectors (Icu_init Config s) = true ∧
      deliverPendingCapture (Icu_init Config s) =
        TIMER1_CAPT_ISR
          { Icu_init Config s with
            TIFR := ((Icu_init Config s).TIFR &&& bitNot (1 <<< ICF1)) % 256 } ∧
      capturePending (deliverPendingCapture (Icu_init Config s)) = false) := by
  have hp : capturePending (Icu_init Config s) = true := hpend
  have hT := Icu_init_TIMSK_bit Config s
  have hS : (Icu_init Config s).SREG = s.SREG := rfl
  refine ⟨rfl, hp, fun hI => ?_, fun hI => ?_⟩
  · have hv : captureVectors (Icu_init Config s) = false := by
      simp only [captureVectors, captureInterruptEnabled, hS, hI, Bool.and_false]
    have hd : deliverPendingCapture (Icu_init Config s) = Icu_init Config s := by
      unfold deliverPendingCapture
      rw [hv]
      rfl
    exact ⟨hv, hd, by rw [hd]; exact hp⟩
  · have hv : captureVectors (Icu_init Config s) = true := by
      simp only [captureVectors, captureInterruptEnabled, hS, hI, hT, hp, Bool.and_self]
    have hd : deliverPendingCapture (Icu_init Config s) =
        TIMER1_CAPT_ISR
          { Icu_init Config s with
            TIFR := ((Icu_init Config s).TIFR &&& bitNot (1 <<< ICF1)) % 256 } := by
      unfold deliverPendingCapture
      rw [hv]
      rfl
    exact ⟨hv, hd, by rw [hd]; exact capturePending_acknowledged _⟩

/-- Witness for C12 (amended): a re-initialisation with the callback installed, the global
interrupt bit set and a capture pending: the ISR is entered and the flag acknowledged; with
the global interrupt bit clear the flag stays set. -/
theorem Icu_init_pending_capture_witness :
    capturePending ({ Ultrasonic_init fixtureConfig resetState with
        TIFR := 32, SREG := 128 } : Mcu) = true ∧
    ({ Ultrasonic_init fixtureConfig resetState with
        TIFR := 32, SREG := 128 } : Mcu).SREG.testBit SREG_I = true ∧
    capturePending (deliverPendingCapture (Icu_init ⟨F_CPU_8, .RISING⟩
      { Ultrasonic_init fixtureConfig resetState with TIFR := 32, SREG := 128 })) = false ∧
    capturePending ({ resetState with TIFR := 32 } : Mcu) = true ∧
    ({ resetState with TIFR := 32 } : Mcu).SREG.testBit SREG_I = false ∧
    deliverPendingCapture (Icu_init ⟨F_CPU_8, .RISING⟩ { resetState with TIFR := 32 }) =
      Icu_init ⟨F_CPU_8, .RISING⟩ { resetState with TIFR := 32 } :=
  ⟨by decide, by decide,
    ((Icu_init_pending_capture ⟨F_CPU_8, .RISING⟩
      { Ultrasonic_init fixtureConfig resetState with TIFR := 32, SREG := 128 }
      (by decide)).2.2.2 (by decide)).2.2,
    by decide, by decide,
    ((Icu_init_pending_capture ⟨F_CPU_8, .RISING⟩ { resetState with TIFR := 32 }
      (by decide)).2.2.1 (by decide)).2.1⟩

/-- C13: every call of `Ultrasonic_readDistance`, whatever `ready` is, emits exactly one
trigger pulse before it inspects `ready`.  The functions of the embedding are their bodies
run on the plain machine; run on the recording machine from any state and trace, the body
computes the same result and state and adds exactly four actions: write trigger pin high,
busy delay of `TRIGGER_PIN_DELAY_TIME_MICROSECONDS`, write trigger pin low, load of
`ready`.  The write low starts at least the delay after the write high, hence at least
10 µs after it when the constant is at least 10; for a valid trigger location the pin is
high after the first write and low on return. -/
theorem readDistance_trigger_pulse (cfg : UltrasonicConfig) (s : Mcu) (tr : Trace) :
    Ultrasonic_Trigger cfg s = Ultrasonic_Trigger_on plainMachine cfg s ∧
    Ultrasonic_readDistance cfg s = Ultrasonic_readDistance_on plainMachine cfg s ∧
    ((Ultrasonic_readDistance_on recordingMachine cfg (s, tr)).1,
        (Ultrasonic_readDistance_on recordingMachine cfg (s, tr)).2.1) =
      Ultrasonic_readDistance cfg s ∧
    newEvents tr (Ultrasonic_readDistance_on recordingMachine cfg (s, tr)).2.2 =
      [(tr.clock_us,
          Event.gpioWrite cfg.ULTRASONIC_TRIGGER_PORT_ID cfg.ULTRASONIC_TRIGGER_PIN_ID true),
        (tr.clock_us, Event.delayUs cfg.TRIGGER_PIN_DELAY_TIME_MICROSECONDS),
        (tr.clock_us + cfg.TRIGGER_PIN_DELAY_TIME_MICROSECONDS,
          Event.gpioWrite cfg.ULTRASONIC_TRIGGER_PORT_ID cfg.ULTRASONIC_TRIGGER_PIN_ID false),
        (tr.clock_us + cfg.TRIGGER_PIN_DELAY_TIME_MICROSECONDS,
          Event.loadReady s.g_startCalculations)] ∧
    (Ultrasonic_readDistance_on recordingMachine cfg (s, tr)).2.2.events =
      tr.events ++ newEvents tr (Ultrasonic_readDistance_on recordingMachine cfg (s, tr)).2.2 ∧
    (10 ≤ cfg.TRIGGER_PIN_DELAY_TIME_MICROSECONDS →
      ∀ tHigh tLow : Nat,
        (tHigh, Event.gpioWrite cfg.ULTRASONIC_TRIGGER_PORT_ID cfg.ULTRASONIC_TRIGGER_PIN_ID
            true) ∈
          newEvents tr (Ultrasonic_readDistance_on recordingMachine cfg (s, tr)).2.2 →
        (tLow, Event.gpioWrite cfg.ULTRASONIC_TRIGGER_PORT_ID cfg.ULTRASONIC_TRIGGER_PIN_ID
            false) ∈
          newEvents tr (Ultrasonic_readDistance_on recordingMachine cfg (s, tr)).2.2 →
        tHigh + 10 ≤ tLow) ∧
    (cfg.ULTRASONIC_TRIGGER_PORT_ID < 4 → cfg.ULTRASONIC_TRIGGER_PIN_ID < 8 →
      pinIsHigh cfg.ULTRASONIC_TRIGGER_PORT_ID cfg.ULTRASONIC_TRIGGER_PIN_ID
        (GPIO_writePin cfg.ULTRASONIC_TRIGGER_PORT_ID cfg.ULTRASONIC_TRIGGER_PIN_ID true s)
        = true ∧
      pinIsHigh cfg.ULTRASONIC_TRIGGER_PORT_ID cfg.ULTRASONIC_TRIGGER_PIN_ID
        (Ultrasonic_readDistance cfg s).2 = false) := by
  obtain ⟨hres, htr⟩ := Ultrasonic_readDistance_recorded cfg s tr
  have hnew : newEvents tr (Ultrasonic_readDistance_on recordingMachine cfg (s, tr)).2.2 =
      [(tr.clock_us,
          Event.gpioWrite cfg.ULTRASONIC_TRIGGER_PORT_ID cfg.ULTRASONIC_TRIGGER_PIN_ID true),
        (tr.clock_us, Event.delayUs cfg.TRIGGER_PIN_DELAY_TIME_MICROSECONDS),
        (tr.clock_us + cfg.TRIGGER_PIN_DELAY_TIME_MICROSECONDS,
          Event.gpioWrite cfg.ULTRASONIC_TRIGGER_PORT_ID cfg.ULTRASONIC_TRIGGER_PIN_ID false),
        (tr.clock_us + cfg.TRIGGER_PIN_DELAY_TIME_MICROSECONDS,
          Event.loadReady s.g_startCalculations)] := by
    unfold newEvents
    rw [htr]
    exact List.drop_left _ _
  refine ⟨rfl, rfl, hres, hnew, ?_, ?_, fun hport hpin => ⟨?_, ?_⟩⟩
  · rw [hnew, htr]
  · intro hD tHigh tLow hH hL
    rw [hnew] at hH hL
    simp at hH hL
    omega
  · exact pinIsHigh_writePin_high _ _ s hport hpin
  · have hlow := pinIsHigh_Ultrasonic_Trigger cfg s hport hpin
    by_cases h : s.g_startCalculations = 1
    · rw [Ultrasonic_readDistance_ready cfg s h]
      unfold pinIsHigh at hlow ⊢
      rw [portOf_update_statics]
      exact hlow
    · rw [Ultrasonic_readDistance_stale cfg s h]
      exact hlow

/-- Witness for C13: a read right after `Ultrasonic_init` under the fixtures, recorded from
the empty trace: the delay constant is 10, the pin is written high at time 0 and low at
time 10, and port B pin 5 is low on return. -/
theorem readDistance_trigger_pulse_witness :
    10 ≤ fixtureConfig.TRIGGER_PIN_DELAY_TIME_MICROSECONDS ∧
    fixtureConfig.ULTRASONIC_TRIGGER_PORT_ID < 4 ∧ fixtureConfig.ULTRASONIC_TRIGGER_PIN_ID < 8 ∧
    newEvents ⟨0, []⟩ (Ultrasonic_readDistance_on recordingMachine fixtureConfig
        (Ultrasonic_init fixtureConfig resetState, ⟨0, []⟩)).2.2 =
      [(0, Event.gpioWrite 1 5 true), (0, Event.delayUs 10), (10, Event.gpioWrite 1 5 false),
        (10, Event.loadReady 0)] ∧
    (0 : Nat) + 10 ≤ 10 ∧
    pinIsHigh fixtureConfig.ULTRASONIC_TRIGGER_PORT_ID fixtureConfig.ULTRASONIC_TRIGGER_PIN_ID
      (Ultrasonic_readDistance fixtureConfig (Ultrasonic_init fixtureConfig resetState)).2
      = false :=
  ⟨by decide, by decide, by decide,
    (readDistance_trigger_pulse fixtureConfig (Ultrasonic_init fixtureConfig resetState)
      ⟨0, []⟩).2.2.2.1,
    (readDistance_trigger_pulse fixtureConfig (Ultrasonic_init fixtureConfig resetState)
      ⟨0, []⟩).2.2.2.2.2.1 (by decide) 0 10 (by decide) (by decide),
    ((readDistance_trigger_pulse fixtureConfig (Ultrasonic_init fixtureConfig resetState)
      ⟨0, []⟩).2.2.2.2.2.2 (by decide) (by decide)).2⟩

/-- C14 (default branch is a no-op): when `edge_count` after the increment on entry is
neither 1 nor 2, `Ultrasonic_edgeProcessing` only stores the incremented counter: `ready`,
`high_time_ticks`, the timer count, the capture register, the capture edge polarity and the
retained distance are unchanged.  For an 8-bit `edge_count` the condition says that
`edge_count` on entry is neither 0 nor 1. -/
theorem default_branch_noop (s : Mcu)
    (h1 : (s.g_interruptCounter + 1) % 256 ≠ 1) (h2 : (s.g_interruptCounter + 1) % 256 ≠ 2) :
    (Ultrasonic_edgeProcessing s).g_startCalculations = s.g_startCalculations ∧
    (Ultrasonic_edgeProcessing s).g_highTime = s.g_highTime ∧
    (Ultrasonic_edgeProcessing s).TCNT1 = s.TCNT1 ∧
    (Ultrasonic_edgeProcessing s).ICR1 = s.ICR1 ∧
    captureEdge (Ultrasonic_edgeProcessing s) = captureEdge s ∧
    (Ultrasonic_edgeProcessing s).TCCR1B = s.TCCR1B ∧
    (Ultrasonic_edgeProcessing s).distance = s.distance ∧
    Ultrasonic_edgeProcessing s =
      { s with g_interruptCounter := (s.g_interruptCounter + 1) % 256 } ∧
    (∀ n : Nat, n < 256 →
      (((n + 1) % 256 ≠ 1 ∧ (n + 1) % 256 ≠ 2) ↔ (n ≠ 0 ∧ n ≠ 1))) := by
  rw [Ultrasonic_edgeProcessing_default s h1 h2]
  refine ⟨rfl, rfl, rfl, rfl, rfl, rfl, rfl, rfl, fun n hn => ?_⟩
  omega

/-- Witness for C14: entry with `edge_count = 2`, so that the increment gives 3. -/
theorem default_branch_noop_witness :
    (({ resetState with g_interruptCounter := 2 } : Mcu).g_interruptCounter + 1) % 256 ≠ 1 ∧
    (({ resetState with g_interruptCounter := 2 } : Mcu).g_interruptCounter + 1) % 256 ≠ 2 ∧
    (Ultrasonic_edgeProcessing { resetState with g_interruptCounter := 2 }).g_startCalculations
      = 0 :=
  ⟨by decide, by decide,
    (default_branch_noop { resetState with g_interruptCounter := 2 } (by decide) (by decide)).1⟩

/-- C15, as stated, fails: in the start-up of `main` under the fixtures from the reset state
(LCD initialisation taken as leaving the state alone), the state in which `Icu_setCallBack`
is called, the fourth program point, has the capture interrupt deliverable (global
interrupt bit and `TICIE1` both set) while the callback pointer is still null. -/
theorem callback_install_unmasked_counterexample :
    (main_startupStates (fun x => x) fixtureConfig resetState)[3]? =
      some (main_atSetCallBack (fun x => x) fixtureConfig resetState) ∧
    (main_atSetCallBack (fun x => x) fixtureConfig resetState).SREG.testBit SREG_I = true ∧
    (main_atSetCallBack (fun x => x) fixtureConfig resetState).TIMSK.testBit TICIE1 = true ∧
    captureInterruptEnabled (main_atSetCallBack (fun x => x) fixtureConfig resetState) = true ∧
    (main_atSetCallBack (fun x => x) fixtureConfig resetState).g_callBackPtr = none := by
  refine ⟨rfl, by decide, by decide, by decide, rfl⟩

/-- C15, amended: in the start-up of `main`, for every LCD initialisation that leaves `SREG`
and the callback pointer alone, `Icu_setCallBack` is called with capture interrupts not
masked: `main` has set the global interrupt bit and `Icu_init` has set `TICIE1`, so the
capture interrupt is deliverable while the callback pointer is still null.  A capture
delivered in that state runs the ISR, whose null check skips the call: only the capture
register is latched, and `edge_count`, `ready` and `high_time_ticks` keep their values.
After `Icu_setCallBack` the pointer is the edge-processing callback. -/
theorem callback_install_window (LCD_init : Mcu → Mcu) (cfg : UltrasonicConfig) (s : Mcu)
    (hSREG : ∀ x : Mcu, (LCD_init x).SREG = x.SREG)
    (hptr : ∀ x : Mcu, (LCD_init x).g_callBackPtr = x.g_callBackPtr)
    (hnull : s.g_callBackPtr = none) :
    (main_startupStates LCD_init cfg s)[3]? = some (main_atSetCallBack LCD_init cfg s) ∧
    (main_startupStates LCD_init cfg s)[5]? =
      some (Ultrasonic_init cfg (LCD_init (main_enableInterrupts s))) ∧
    captureInterruptEnabled (main_atSetCallBack LCD_init cfg s) = true ∧
    (main_atSetCallBack LCD_init cfg s).g_callBackPtr = none ∧
    (∀ count : Nat,
      (captureEvent count (main_atSetCallBack LCD_init cfg s)).g_interruptCounter =
        (main_atSetCallBack LCD_init cfg s).g_interruptCounter ∧
      (captureEvent count (main_atSetCallBack LCD_init cfg s)).g_startCalculations =
        (main_atSetCallBack LCD_init cfg s).g_startCalculations ∧
      (captureEvent count (main_atSetCallBack LCD_init cfg s)).g_highTime =
        (main_atSetCallBack LCD_init cfg s).g_highTime ∧
      (captureEvent count (main_atSetCallBack LCD_init cfg s)).ICR1 = count % 65536) ∧
    (Icu_setCallBack (some .edgeProcessing) (main_atSetCallBack LCD_init cfg s)).g_callBackPtr =
      some .edgeProcessing := by
  have hen := captureInterruptEnabled_atSetCallBack LCD_init cfg s hSREG
  have hp : (main_atSetCallBack LCD_init cfg s).g_callBackPtr = none := by
    show (LCD_init (main_enableInterrupts s)).g_callBackPtr = none
    rw [hptr]
    exact hnull
  refine ⟨rfl, rfl, hen, hp, fun count => ?_, rfl⟩
  rw [captureEvent_null_callback count _ hen hp]
  exact ⟨rfl, rfl, rfl, rfl⟩

/-- Witness for C15 (amended): the start-up from the reset state under the fixtures, with an
LCD initialisation that leaves the state alone. -/
theorem callback_install_window_witness :
    (∀ x : Mcu, ((fun y : Mcu => y) x).SREG = x.SREG) ∧
    (∀ x : Mcu, ((fun y : Mcu => y) x).g_callBackPtr = x.g_callBackPtr) ∧
    resetState.g_callBackPtr = none ∧
    captureInterruptEnabled (main_atSetCallBack (fun y => y) fixtureConfig resetState) = true :=
  ⟨fun _ => rfl, fun _ => rfl, rfl,
    (callback_install_window (fun y => y) fixtureConfig resetState (fun _ => rfl) (fun _ => rfl)
      rfl).2.2.1⟩

/-- C16 (freshness invariant): from a state with `ready` clear (the post-init state), after
any sequence of callback invocations and reads, if `ready` is set then `high_time_ticks`
equals the ghost value, the capture-register value read by the most recent callback
invocation that took the second-edge branch; the ghost run computes the same states as
the plain run. -/
theorem freshness_invariant (cfg : UltrasonicConfig) (s0 : Mcu) (ops : List Op)
    (hready : s0.g_startCalculations = 0) :
    (runOpsGhost cfg s0 ops).1 = runOps cfg s0 ops ∧
    ((runOps cfg s0 ops).g_startCalculations = 1 →
      (runOpsGhost cfg s0 ops).2 = some (runOps cfg s0 ops).g_highTime) := by
  obtain ⟨h1, h2, h3⟩ := foldl_stepGhost_inv cfg ops (s0, none)
    (fun _ => by rw [hready]; decide) (fun v hv => by simp at hv)
  refine ⟨h3, fun hr => ?_⟩
  have h3a : (runOpsGhost cfg s0 ops).1 = runOps cfg s0 ops := h3
  cases hg : (runOpsGhost cfg s0 ops).2 with
  | none =>
    exfalso
    apply h1 hg
    show (runOpsGhost cfg s0 ops).1.g_startCalculations = 1
    rw [h3a]
    exact hr
  | some v =>
    have hv : (runOpsGhost cfg s0 ops).1.g_highTime = v := h2 v hg
    rw [h3a] at hv
    rw [hv]

/-- Witness for C16: two complete echoes after `Ultrasonic_init`, the second with 700 ticks;
`ready` is set and the ghost value is the second capture. -/
theorem freshness_invariant_witness :
    (Ultrasonic_init fixtureConfig resetState).g_startCalculations = 0 ∧
    (runOpsGhost fixtureConfig (Ultrasonic_init fixtureConfig resetState)
        [Op.edge 0, Op.edge 3000, Op.edge 0, Op.edge 700]).1 =
      runOps fixtureConfig (Ultrasonic_init fixtureConfig resetState)
        [Op.edge 0, Op.edge 3000, Op.edge 0, Op.edge 700] ∧
    (runOps fixtureConfig (Ultrasonic_init fixtureConfig resetState)
        [Op.edge 0, Op.edge 3000, Op.edge 0, Op.edge 700]).g_startCalculations = 1 ∧
    (runOpsGhost fixtureConfig (Ultrasonic_init fixtureConfig resetState)
        [Op.edge 0, Op.edge 3000, Op.edge 0, Op.edge 700]).2 =
      some (runOps fixtureConfig (Ultrasonic_init fixtureConfig resetState)
        [Op.edge 0, Op.edge 3000, Op.edge 0, Op.edge 700]).g_highTime :=
  ⟨by decide,
    (freshness_invariant fixtureConfig (Ultrasonic_init fixtureConfig resetState)
      [Op.edge 0, Op.edge 3000, Op.edge 0, Op.edge 700] (by decide)).1,
    by decide,
    (freshness_invariant fixtureConfig (Ultrasonic_init fixtureConfig resetState)
      [Op.edge 0, Op.edge 3000, Op.edge 0, Op.edge 700] (by decide)).2 (by decide)⟩

/-- C17 (range bound under the fixtures, exact arithmetic): for every 16-bit
`high_time_ticks` `t`, `raw_cm = ceil(343 * t / 40000)` is at most 562 and the corrected
distance is at most 567, with equality at `t = 65535`; the conversion to `uint16` and the
bias addition do not wrap, so the computed value is the unwrapped `raw_cm` plus its
bias. -/
theorem range_bound (t : Nat) (ht : t < 65536) :
    ⌈distanceReal fixtureConfig t⌉ = ⌈(343 * (t : ℚ)) / 40000⌉ ∧
    ⌈(343 * (t : ℚ)) / 40000⌉ ≤ 562 ∧
    (castUint16 ⌈distanceReal fixtureConfig t⌉ : ℤ) = ⌈(343 * (t : ℚ)) / 40000⌉ ∧
    biasCorrection (castUint16 ⌈distanceReal fixtureConfig t⌉) =
      Int.toNat ⌈(343 * (t : ℚ)) / 40000⌉ + specBias (Int.toNat ⌈(343 * (t : ℚ)) / 40000⌉) ∧
    biasCorrection (castUint16 ⌈distanceReal fixtureConfig t⌉) ≤ 567 ∧
    (∀ s : Mcu, s.g_startCalculations = 1 → s.g_highTime = t →
      (Ultrasonic_readDistance fixtureConfig s).1 =
        Int.toNat ⌈(343 * (t : ℚ)) / 40000⌉ + specBias (Int.toNat ⌈(343 * (t : ℚ)) / 40000⌉) ∧
      (Ultrasonic_readDistance fixtureConfig s).1 ≤ 567) ∧
    castUint16 ⌈distanceReal fixtureConfig 65535⌉ = 562 ∧
    biasCorrection (castUint16 ⌈distanceReal fixtureConfig 65535⌉) = 567 := by
  have hq : (343 * (t : ℚ)) / 40000 = ((343 * t : Nat) : ℚ) / 40000 := by push_cast; rfl
  have hb : (343 * t + 39999) / 40000 ≤ 562 := by omega
  have hc : ⌈(343 * (t : ℚ)) / 40000⌉ = (((343 * t + 39999) / 40000 : Nat) : ℤ) := by
    rw [hq, ceil_div_40000]
  have hraw : castUint16 ⌈distanceReal fixtureConfig t⌉ = (343 * t + 39999) / 40000 := by
    rw [rawDistance_fixture, Nat.mod_eq_of_lt (by omega)]
  have hcorr : biasCorrection ((343 * t + 39999) / 40000) =
      specCorrect ((343 * t + 39999) / 40000) :=
    biasCorrection_eq_specCorrect _ (by omega)
  have h567 : specCorrect ((343 * t + 39999) / 40000) ≤ 567 := by
    have := specCorrect_mono _ _ hb
    have h562 : specCorrect 562 = 567 := by decide
    omega
  have hval : biasCorrection (castUint16 ⌈distanceReal fixtureConfig t⌉) =
      Int.toNat ⌈(343 * (t : ℚ)) / 40000⌉ + specBias (Int.toNat ⌈(343 * (t : ℚ)) / 40000⌉) := by
    rw [hraw, hc, Int.toNat_natCast, hcorr]; rfl
  have hle : biasCorrection (castUint16 ⌈distanceReal fixtureConfig t⌉) ≤ 567 := by
    rw [hraw, hcorr]; exact h567
  refine ⟨by rw [distanceReal_fixture], ?_, ?_, hval, hle, ?_, ?_, ?_⟩
  · rw [hc]; exact_mod_cast hb
  · rw [hraw, hc]
  · intro s hr hh
    rw [Ultrasonic_readDistance_ready fixtureConfig s hr, hh]
    exact ⟨hval, hle⟩
  · rw [rawDistance_fixture]
  · rw [rawDistance_fixture]; decide

/-- Witness for C17: the bound at `t = 7000` (raw 61, corrected 62). -/
theorem range_bound_witness :
    (7000 : Nat) < 65536 ∧
    biasCorrection (castUint16 ⌈distanceReal fixtureConfig 7000⌉) ≤ 567 :=
  ⟨by decide, (range_bound 7000 (by decide)).2.2.2.2.1⟩

/-- C18: the bias correction is strictly increasing, hence injective, on raw values whose
corrected value fits in 16 bits; under the fixtures (exact arithmetic) the returned
distance is a non-decreasing function of `high_time_ticks`; and no 16-bit raw value is
corrected to 59, 130, 201, 273 or 347. -/
theorem biasCorrection_strictMono :
    (∀ a b : Nat, a < b → specCorrect b < 65536 → biasCorrection a < biasCorrection b) ∧
    (∀ a b : Nat, specCorrect a < 65536 → specCorrect b < 65536 →
      biasCorrection a = biasCorrection b → a = b) ∧
    (∀ (s : Mcu) (t1 t2 : Nat), s.g_interruptCounter = 0 → t1 ≤ t2 → t2 < 65536 →
      scenarioDistance fixtureConfig s t1 ≤ scenarioDistance fixtureConfig s t2) ∧
    (∀ raw : Nat, raw < 65536 →
      biasCorrection raw ≠ 59 ∧ biasCorrection raw ≠ 130 ∧ biasCorrection raw ≠ 201 ∧
      biasCorrection raw ≠ 273 ∧ biasCorrection raw ≠ 347) := by
  have hmono : ∀ a b : Nat, a < b → specCorrect b < 65536 →
      biasCorrection a < biasCorrection b := by
    intro a b hab hb
    have hb5 : b < 343 ∨ b + 5 < 65536 := by
      unfold specCorrect specBias at hb
      split_ifs at hb <;> omega
    unfold biasCorrection
    split_ifs <;> omega
  have hfit : ∀ a : Nat, specCorrect a < 65536 → a < 65536 := by
    intro a ha
    unfold specCorrect at ha
    omega
  refine ⟨hmono, ?_, ?_, ?_⟩
  · intro a b ha hb hab
    rcases Nat.lt_trichotomy a b with h | h | h
    · have := hmono a b h hb; omega
    · exact h
    · have := hmono b a h ha; omega
  · intro s t1 t2 h0 h12 h2
    rw [scenarioDistance_fixture s t1 h0 (by omega), scenarioDistance_fixture s t2 h0 h2]
    apply specCorrect_mono
    apply Nat.div_le_div_right
    omega
  · intro raw hraw
    unfold biasCorrection
    split_ifs <;> omega

/-- Witness for C18: raw values 128 and 129 are corrected to 129 and 131. -/
theorem biasCorrection_strictMono_witness :
    (128 : Nat) < 129 ∧ specCorrect 129 < 65536 ∧ biasCorrection 128 < biasCorrection 129 :=
  ⟨by decide, by decide, biasCorrection_strictMono.1 128 129 (by decide) (by decide)⟩

/-- C19: `Ultrasonic_init` does not reset the measurement state: for every prior state it
leaves `edge_count`, `ready`, `high_time_ticks` and the retained distance unchanged and
forces the capture edge to rising; called with `edge_count = 1` it yields `edge_count = 1`
with rising polarity, and it yields `edge_count = 0` exactly when called with
`edge_count = 0`, as in an init / read / init sequence with no capture in between. -/
theorem Ultrasonic_init_keeps_measurement_state (cfg : UltrasonicConfig) (s : Mcu) :
    (Ultrasonic_init cfg s).g_interruptCounter = s.g_interruptCounter ∧
    (Ultrasonic_init cfg s).g_startCalculations = s.g_startCalculations ∧
    (Ultrasonic_init cfg s).g_highTime = s.g_highTime ∧
    (Ultrasonic_init cfg s).distance = s.distance ∧
    captureEdge (Ultrasonic_init cfg s) = .RISING ∧
    (s.g_interruptCounter = 1 →
      (Ultrasonic_init cfg s).g_interruptCounter = 1 ∧
        captureEdge (Ultrasonic_init cfg s) = .RISING) ∧
    ((Ultrasonic_init cfg s).g_interruptCounter = 0 ↔ s.g_interruptCounter = 0) ∧
    (s.g_interruptCounter = 0 →
      (Ultrasonic_init cfg (Ultrasonic_readDistance cfg (Ultrasonic_init cfg s)).2).g_interruptCounter
        = 0 ∧
      captureEdge (Ultrasonic_init cfg (Ultrasonic_readDistance cfg (Ultrasonic_init cfg s)).2)
        = .RISING) := by
  obtain ⟨hc, hr, hh, hd, _⟩ := Ultrasonic_init_statics cfg s
  have he := captureEdge_Ultrasonic_init cfg s
  refine ⟨hc, hr, hh, hd, he, fun h1 => ⟨by rw [hc, h1], he⟩, by rw [hc], fun h0 => ⟨?_, ?_⟩⟩
  · rw [(Ultrasonic_init_statics cfg _).1, Ultrasonic_readDistance_counter, hc, h0]
  · exact captureEdge_Ultrasonic_init cfg _

/-- Witness for C19: `Ultrasonic_init` called after one callback invocation, in a state with
`edge_count = 1` and falling polarity, yields `edge_count = 1` with rising polarity. -/
theorem Ultrasonic_init_keeps_measurement_state_witness :
    (Ultrasonic_edgeProcessing (Ultrasonic_init fixtureConfig resetState)).g_interruptCounter
      = 1 ∧
    captureEdge (Ultrasonic_edgeProcessing (Ultrasonic_init fixtureConfig resetState))
      = .FALLING ∧
    (Ultrasonic_init fixtureConfig
      (Ultrasonic_edgeProcessing (Ultrasonic_init fixtureConfig resetState))).g_interruptCounter
      = 1 ∧
    captureEdge (Ultrasonic_init fixtureConfig
      (Ultrasonic_edgeProcessing (Ultrasonic_init fixtureConfig resetState))) = .RISING :=
  ⟨by decide, by decide,
    ((Ultrasonic_init_keeps_measurement_state fixtureConfig
      (Ultrasonic_edgeProcessing (Ultrasonic_init fixtureConfig resetState))).2.2.2.2.2.1
        (by decide)).1,
    ((Ultrasonic_init_keeps_measurement_state fixtureConfig
      (Ultrasonic_edgeProcessing (Ultrasonic_init fixtureConfig resetState))).2.2.2.2.2.1
        (by decide)).2⟩

end DistanceMeasuring
